import Mathlib

/-!
Verification of the coordinate-conversion core of the leaflet map
coordinate calculator (src/coordsys.js).  The library converts between
WGS84 geodetic coordinates, PSD93 geodetic coordinates (Clarke 1880
ellipsoid) and PSD93/UTM grid coordinates, via a 7-parameter Helmert
transformation and closed-form transverse Mercator series.

The JavaScript source is embedded shallowly over the real numbers:
every arithmetic operation, trigonometric call and square root of the
source is mirrored by the corresponding operation on Real.  JavaScript
Math.atan2 is modelled by the atan2 function below (the source only
ever calls it away from the negative-zero corner cases, which have no
counterpart in Real).
-/

namespace CoordSys

open Real

noncomputable section

/-- Helmert transformation parameters from WGS84 to PSD93 (EPSG:1439),
mirroring the helmertParams object of the source. -/
structure HelmertParameters where
  dx : ℝ
  dy : ℝ
  dz : ℝ
  rx : ℝ
  ry : ℝ
  rz : ℝ
  scale : ℝ

/-- Parameter instance of the source: translations in meters, rotations in
arc-seconds, scale in parts per million. -/
def helmertParams : HelmertParameters :=
  ⟨-180.624, -225.516, 173.919, -0.81, -1.898, 8.336, 16.71006⟩

/-- Degrees to radians, as in the source. -/
def deg2rad (deg : ℝ) : ℝ := deg * π / 180

/-- Radians to degrees, as in the source. -/
def rad2deg (r : ℝ) : ℝ := r * 180 / π

/-- Arc-seconds to radians, as in the source. -/
def arcsec2rad (sec : ℝ) : ℝ := sec * (π / 180) / 3600

/-- Model of JavaScript Math.atan2 on real arguments. -/
def atan2 (y x : ℝ) : ℝ :=
  if 0 < x then arctan (y / x)
  else if x < 0 then
    if 0 ≤ y then arctan (y / x) + π else arctan (y / x) - π
  else
    if 0 < y then π / 2 else if y < 0 then -(π / 2) else 0

/-- Geodetic to cartesian (ECEF) conversion, mirroring geodeticToECEF. -/
def geodeticToECEF (lat lon h a f : ℝ) : ℝ × ℝ × ℝ :=
  let latr := deg2rad lat
  let lonr := deg2rad lon
  let e2 := 2 * f - f * f
  let N := a / Real.sqrt (1 - e2 * Real.sin latr * Real.sin latr)
  ((N + h) * Real.cos latr * Real.cos lonr,
   (N + h) * Real.cos latr * Real.sin lonr,
   (N * (1 - e2) + h) * Real.sin latr)

/-- Auxiliary quantity p of ecefToGeodetic. -/
def ecefP (X Y : ℝ) : ℝ := Real.sqrt (X * X + Y * Y)

/-- Auxiliary angle theta of ecefToGeodetic. -/
def bowringTheta (X Y Z a f : ℝ) : ℝ :=
  atan2 (Z * a) (ecefP X Y * (1 - f) * a)

/-- Latitude of ecefToGeodetic (single-pass Bowring formula). -/
def bowringLat (X Y Z a f : ℝ) : ℝ :=
  let e2 := 2 * f - f * f
  let ep2 := e2 / (1 - e2)
  atan2 (Z + ep2 * (1 - f) * a * Real.sin (bowringTheta X Y Z a f) ^ 3)
    (ecefP X Y - e2 * a * Real.cos (bowringTheta X Y Z a f) ^ 3)

/-- Cartesian (ECEF) to geodetic conversion, mirroring ecefToGeodetic. -/
def ecefToGeodetic (X Y Z a f : ℝ) : ℝ × ℝ × ℝ :=
  let e2 := 2 * f - f * f
  let lat := bowringLat X Y Z a f
  let N := a / Real.sqrt (1 - e2 * Real.sin lat * Real.sin lat)
  (rad2deg lat, rad2deg (atan2 Y X), ecefP X Y / Real.cos lat - N)

/-- Forward 7-parameter Helmert step (Position Vector convention), as
inlined in wgs84ToPSD93 of the source. -/
def helmertForward (X Y Z : ℝ) : ℝ × ℝ × ℝ :=
  let s := helmertParams.scale * 1e-6
  let rx := arcsec2rad helmertParams.rx
  let ry := arcsec2rad helmertParams.ry
  let rz := arcsec2rad helmertParams.rz
  let tX := helmertParams.dx
  let tY := helmertParams.dy
  let tZ := helmertParams.dz
  (X + tX + s * X - rz * Y + ry * Z,
   Y + tY + rz * X + s * Y - rx * Z,
   Z + tZ - ry * X + rx * Y + s * Z)

/-- Inverse 7-parameter Helmert step: all seven parameters negated, same
linear form, as inlined in psd93ToWGS84 of the source. -/
def helmertInverse (X Y Z : ℝ) : ℝ × ℝ × ℝ :=
  let s := -(helmertParams.scale * 1e-6)
  let rx := -arcsec2rad helmertParams.rx
  let ry := -arcsec2rad helmertParams.ry
  let rz := -arcsec2rad helmertParams.rz
  let tX := -helmertParams.dx
  let tY := -helmertParams.dy
  let tZ := -helmertParams.dz
  (X + tX + s * X - rz * Y + ry * Z,
   Y + tY + rz * X + s * Y - rx * Z,
   Z + tZ - ry * X + rx * Y + s * Z)

/-- ECEF stage of wgs84ToPSD93 (WGS84 ellipsoid). -/
def wgs84ECEF (lat lon h : ℝ) : ℝ × ℝ × ℝ :=
  geodeticToECEF lat lon h 6378137.0 (1 / 298.257223563)

/-- Helmert stage of wgs84ToPSD93. -/
def wgs84Cartesian (lat lon h : ℝ) : ℝ × ℝ × ℝ :=
  helmertForward (wgs84ECEF lat lon h).1 (wgs84ECEF lat lon h).2.1
    (wgs84ECEF lat lon h).2.2

/-- Full WGS84 to PSD93 datum conversion, mirroring wgs84ToPSD93. -/
def wgs84ToPSD93 (lat lon h : ℝ) : ℝ × ℝ × ℝ :=
  ecefToGeodetic (wgs84Cartesian lat lon h).1 (wgs84Cartesian lat lon h).2.1
    (wgs84Cartesian lat lon h).2.2 6378249.145 (1 / 293.465)

/-- ECEF stage of psd93ToWGS84 (Clarke 1880 ellipsoid). -/
def psd93ECEF (lat lon h : ℝ) : ℝ × ℝ × ℝ :=
  geodeticToECEF lat lon h 6378249.145 (1 / 293.465)

/-- Inverse Helmert stage of psd93ToWGS84. -/
def psd93Cartesian (lat lon h : ℝ) : ℝ × ℝ × ℝ :=
  helmertInverse (psd93ECEF lat lon h).1 (psd93ECEF lat lon h).2.1
    (psd93ECEF lat lon h).2.2

/-- Full PSD93 to WGS84 datum conversion, mirroring psd93ToWGS84. -/
def psd93ToWGS84 (lat lon h : ℝ) : ℝ × ℝ × ℝ :=
  ecefToGeodetic (psd93Cartesian lat lon h).1 (psd93Cartesian lat lon h).2.1
    (psd93Cartesian lat lon h).2.2 6378137.0 (1 / 298.257223563)

/-- Clarke 1880 (RGS) semi-major axis used by the UTM code. -/
def clarkeA : ℝ := 6378249.145

/-- Clarke 1880 (RGS) flattening used by the UTM code. -/
def clarkeF : ℝ := 1 / 293.465

/-- Clarke 1880 squared eccentricity. -/
def clarkeE2 : ℝ := 2 * clarkeF - clarkeF * clarkeF

/-- UTM scale factor of the source. -/
def utmK0 : ℝ := 0.9996

/-- Prime-vertical radius N of psd93ToUTM. -/
def utmN (latRad : ℝ) : ℝ :=
  clarkeA / Real.sqrt (1 - clarkeE2 * Real.sin latRad * Real.sin latRad)

/-- Series quantity T of psd93ToUTM. -/
def utmT (latRad : ℝ) : ℝ := Real.tan latRad * Real.tan latRad

/-- Series quantity C of psd93ToUTM. -/
def utmC (latRad : ℝ) : ℝ :=
  (clarkeE2 / (1 - clarkeE2)) * Real.cos latRad * Real.cos latRad

/-- Series quantity A of psd93ToUTM. -/
def utmA (latRad lonRad lon0 : ℝ) : ℝ := Real.cos latRad * (lonRad - lon0)

/-- Meridional arc length M of psd93ToUTM. -/
def utmM (latRad : ℝ) : ℝ :=
  clarkeA *
    ((1 - clarkeE2 / 4 - 3 * clarkeE2 * clarkeE2 / 64 -
        5 * clarkeE2 * clarkeE2 * clarkeE2 / 256) * latRad -
      (3 * clarkeE2 / 8 + 3 * clarkeE2 * clarkeE2 / 32 +
        45 * clarkeE2 * clarkeE2 * clarkeE2 / 1024) * Real.sin (2 * latRad) +
      (15 * clarkeE2 * clarkeE2 / 256 +
        45 * clarkeE2 * clarkeE2 * clarkeE2 / 1024) * Real.sin (4 * latRad) -
      (35 * clarkeE2 * clarkeE2 * clarkeE2 / 3072) * Real.sin (6 * latRad))

/-- Result record of psd93ToUTM. -/
structure UTMPoint where
  easting : ℝ
  northing : ℝ
  zone : ℝ

/-- Result record of utmToPSD93. -/
structure LatLonPoint where
  lat : ℝ
  lon : ℝ

/-- Forward UTM projection for PSD93, mirroring psd93ToUTM. -/
def psd93ToUTM (lat lon zone : ℝ) : UTMPoint :=
  let latRad := deg2rad lat
  let lonRad := deg2rad lon
  let lon0 := deg2rad (6 * zone - 183)
  let N := utmN latRad
  let T := utmT latRad
  let C := utmC latRad
  let A := utmA latRad lonRad lon0
  let M := utmM latRad
  ⟨500000 +
      utmK0 * N *
        (A + (1 - T + C) * A ^ 3 / 6 +
          (5 - 18 * T + T * T + 72 * C - 58 * clarkeE2 / (1 - clarkeE2)) *
            A ^ 5 / 120),
    utmK0 *
      (M +
        N * Real.tan latRad *
          (A * A / 2 + (5 - T + 9 * C + 4 * C * C) * A ^ 4 / 24 +
            (61 - 58 * T + T * T + 600 * C - 330 * clarkeE2 / (1 - clarkeE2)) *
              A ^ 6 / 720)),
    zone⟩

/-- Inverse UTM projection for PSD93, mirroring utmToPSD93 (footpoint
latitude method). -/
def utmToPSD93 (easting northing zone : ℝ) : LatLonPoint :=
  let e2 := clarkeE2
  let e1 := (1 - Real.sqrt (1 - e2)) / (1 + Real.sqrt (1 - e2))
  let lon0 := deg2rad (6 * zone - 183)
  let x := easting - 500000
  let y := northing
  let M := y / utmK0
  let mu := M / (clarkeA * (1 - e2 / 4 - 3 * e2 * e2 / 64 - 5 * e2 * e2 * e2 / 256))
  let phi1 := mu + (3 * e1 / 2 - 27 * e1 ^ 3 / 32) * Real.sin (2 * mu) +
    (21 * e1 * e1 / 16 - 55 * e1 ^ 4 / 32) * Real.sin (4 * mu) +
    (151 * e1 ^ 3 / 96) * Real.sin (6 * mu) +
    (1097 * e1 ^ 4 / 512) * Real.sin (8 * mu)
  let N1 := clarkeA / Real.sqrt (1 - e2 * Real.sin phi1 * Real.sin phi1)
  let T1 := Real.tan phi1 * Real.tan phi1
  let C1 := (e2 / (1 - e2)) * Real.cos phi1 * Real.cos phi1
  let R1 := clarkeA * (1 - e2) / (1 - e2 * Real.sin phi1 * Real.sin phi1) ^ (1.5 : ℝ)
  let D := x / (N1 * utmK0)
  ⟨rad2deg
      (phi1 -
        N1 * Real.tan phi1 / R1 *
          (D * D / 2 -
            (5 + 3 * T1 + 10 * C1 - 4 * C1 * C1 - 9 * e2 / (1 - e2)) * D ^ 4 / 24 +
            (61 + 90 * T1 + 298 * C1 + 45 * T1 * T1 - 252 * e2 / (1 - e2) -
              3 * C1 * C1) * D ^ 6 / 720)),
    rad2deg
      (lon0 +
        (D - (1 + 2 * T1 + C1) * D ^ 3 / 6 +
          (5 - 2 * C1 + 28 * T1 - 3 * C1 * C1 + 8 * e2 / (1 - e2) +
            24 * T1 * T1) * D ^ 5 / 120) / Real.cos phi1)⟩

/-- Forward UTM projection parameterized by an arbitrary central meridian
(in degrees) instead of a zone number; written to state which central
meridian psd93ToUTM uses.  Body otherwise identical to psd93ToUTM. -/
def utmForwardWithCM (lat lon cm : ℝ) : ℝ × ℝ :=
  let latRad := deg2rad lat
  let lonRad := deg2rad lon
  let lon0 := deg2rad cm
  let N := utmN latRad
  let T := utmT latRad
  let C := utmC latRad
  let A := utmA latRad lonRad lon0
  let M := utmM latRad
  (500000 +
      utmK0 * N *
        (A + (1 - T + C) * A ^ 3 / 6 +
          (5 - 18 * T + T * T + 72 * C - 58 * clarkeE2 / (1 - clarkeE2)) *
            A ^ 5 / 120),
    utmK0 *
      (M +
        N * Real.tan latRad *
          (A * A / 2 + (5 - T + 9 * C + 4 * C * C) * A ^ 4 / 24 +
            (61 - 58 * T + T * T + 600 * C - 330 * clarkeE2 / (1 - clarkeE2)) *
              A ^ 6 / 720)))

/-- Inverse UTM projection parameterized by an arbitrary central meridian
(in degrees); body otherwise identical to utmToPSD93. -/
def utmInverseWithCM (easting northing cm : ℝ) : ℝ × ℝ :=
  let e2 := clarkeE2
  let e1 := (1 - Real.sqrt (1 - e2)) / (1 + Real.sqrt (1 - e2))
  let lon0 := deg2rad cm
  let x := easting - 500000
  let y := northing
  let M := y / utmK0
  let mu := M / (clarkeA * (1 - e2 / 4 - 3 * e2 * e2 / 64 - 5 * e2 * e2 * e2 / 256))
  let phi1 := mu + (3 * e1 / 2 - 27 * e1 ^ 3 / 32) * Real.sin (2 * mu) +
    (21 * e1 * e1 / 16 - 55 * e1 ^ 4 / 32) * Real.sin (4 * mu) +
    (151 * e1 ^ 3 / 96) * Real.sin (6 * mu) +
    (1097 * e1 ^ 4 / 512) * Real.sin (8 * mu)
  let N1 := clarkeA / Real.sqrt (1 - e2 * Real.sin phi1 * Real.sin phi1)
  let T1 := Real.tan phi1 * Real.tan phi1
  let C1 := (e2 / (1 - e2)) * Real.cos phi1 * Real.cos phi1
  let R1 := clarkeA * (1 - e2) / (1 - e2 * Real.sin phi1 * Real.sin phi1) ^ (1.5 : ℝ)
  let D := x / (N1 * utmK0)
  (rad2deg
      (phi1 -
        N1 * Real.tan phi1 / R1 *
          (D * D / 2 -
            (5 + 3 * T1 + 10 * C1 - 4 * C1 * C1 - 9 * e2 / (1 - e2)) * D ^ 4 / 24 +
            (61 + 90 * T1 + 298 * C1 + 45 * T1 * T1 - 252 * e2 / (1 - e2) -
              3 * C1 * C1) * D ^ 6 / 720)),
    rad2deg
      (lon0 +
        (D - (1 + 2 * T1 + C1) * D ^ 3 / 6 +
          (5 - 2 * C1 + 28 * T1 - 3 * C1 * C1 + 8 * e2 / (1 - e2) +
            24 * T1 * T1) * D ^ 5 / 120) / Real.cos phi1))

end

/-!
Interval-arithmetic toolkit used to evaluate the embedded functions at
concrete inputs with verified error bounds.  Trigonometric functions are
evaluated through the quartic Taylor enclosures sin_bound and cos_bound
after repeated angle halving, and arctan is bracketed by comparison with
the tangent of rational test angles.
-/

theorem mul_mem_pp {a b al ah bl bh : ℝ} (h1 : al ≤ a) (h2 : a ≤ ah)
    (h3 : bl ≤ b) (h4 : b ≤ bh) (h5 : 0 ≤ al) (h6 : 0 ≤ bl) :
    al * bl ≤ a * b ∧ a * b ≤ ah * bh := by
  constructor <;> nlinarith

theorem mul_mem_np {a b al ah bl bh : ℝ} (h1 : al ≤ a) (h2 : a ≤ ah)
    (h3 : bl ≤ b) (h4 : b ≤ bh) (h5 : ah ≤ 0) (h6 : 0 ≤ bl) :
    al * bh ≤ a * b ∧ a * b ≤ ah * bl := by
  constructor <;> nlinarith

theorem mul_mem_sym {a b c w : ℝ} (h1 : 0 ≤ a) (h2 : a ≤ c) (h3 : -w ≤ b)
    (h4 : b ≤ w) (hw : 0 ≤ w) : -(c * w) ≤ a * b ∧ a * b ≤ c * w := by
  constructor <;> nlinarith

theorem mul_mem_symn {a b c w : ℝ} (h1 : a ≤ 0) (h2 : -c ≤ a) (h3 : -w ≤ b)
    (h4 : b ≤ w) (hw : 0 ≤ w) (hc : 0 ≤ c) :
    -(c * w) ≤ a * b ∧ a * b ≤ c * w := by
  constructor <;> nlinarith

theorem div_mem_pp {a b al ah bl bh : ℝ} (h1 : al ≤ a) (h2 : a ≤ ah)
    (h3 : bl ≤ b) (h4 : b ≤ bh) (h5 : 0 ≤ al) (h6 : 0 < bl) :
    al / bh ≤ a / b ∧ a / b ≤ ah / bl := by
  have hb : 0 < b := lt_of_lt_of_le h6 h3
  constructor
  · exact div_le_div₀ (le_trans h5 h1) h1 hb h4
  · exact div_le_div₀ (by linarith) h2 h6 h3

theorem sqrt_mem {v lo hi s t : ℝ} (h1 : lo ≤ v) (h2 : v ≤ hi) (hs : 0 ≤ s)
    (hs2 : s ^ 2 ≤ lo) (ht : 0 ≤ t) (ht2 : hi ≤ t ^ 2) :
    s ≤ Real.sqrt v ∧ Real.sqrt v ≤ t := by
  constructor
  · rw [show s = Real.sqrt (s ^ 2) from (Real.sqrt_sq hs).symm]
    exact Real.sqrt_le_sqrt (by linarith)
  · rw [show t = Real.sqrt (t ^ 2) from (Real.sqrt_sq ht).symm]
    exact Real.sqrt_le_sqrt (by linarith)

theorem sin_mem {x lo hi : ℝ} (h0 : 0 ≤ lo) (h1 : lo ≤ x) (h2 : x ≤ hi)
    (h3 : hi ≤ 1) :
    lo - hi ^ 3 / 6 - hi ^ 4 * (5 / 96) ≤ Real.sin x ∧
      Real.sin x ≤ hi - lo ^ 3 / 6 + hi ^ 4 * (5 / 96) := by
  have hx0 : 0 ≤ x := le_trans h0 h1
  have hxabs : |x| ≤ 1 := by rw [abs_of_nonneg hx0]; linarith
  have hb := Real.sin_bound hxabs
  rw [abs_of_nonneg hx0, abs_le] at hb
  have hx3 : x ^ 3 ≤ hi ^ 3 := pow_le_pow_left₀ hx0 h2 3
  have hx3l : lo ^ 3 ≤ x ^ 3 := pow_le_pow_left₀ h0 h1 3
  have hx4 : x ^ 4 ≤ hi ^ 4 := pow_le_pow_left₀ hx0 h2 4
  have hx40 : 0 ≤ x ^ 4 := by positivity
  constructor <;> [linarith [hb.1]; linarith [hb.2]]

theorem cos_mem {x lo hi : ℝ} (h0 : 0 ≤ lo) (h1 : lo ≤ x) (h2 : x ≤ hi)
    (h3 : hi ≤ 1) :
    1 - hi ^ 2 / 2 - hi ^ 4 * (5 / 96) ≤ Real.cos x ∧
      Real.cos x ≤ 1 - lo ^ 2 / 2 + hi ^ 4 * (5 / 96) := by
  have hx0 : 0 ≤ x := le_trans h0 h1
  have hxabs : |x| ≤ 1 := by rw [abs_of_nonneg hx0]; linarith
  have hb := Real.cos_bound hxabs
  rw [abs_of_nonneg hx0, abs_le] at hb
  have hx2 : x ^ 2 ≤ hi ^ 2 := pow_le_pow_left₀ hx0 h2 2
  have hx2l : lo ^ 2 ≤ x ^ 2 := pow_le_pow_left₀ h0 h1 2
  have hx4 : x ^ 4 ≤ hi ^ 4 := pow_le_pow_left₀ hx0 h2 4
  have hx40 : 0 ≤ x ^ 4 := by positivity
  constructor <;> [linarith [hb.1]; linarith [hb.2]]

theorem sin_double_mem {x sl su cl cu : ℝ} (h1 : sl ≤ Real.sin x)
    (h2 : Real.sin x ≤ su) (h3 : cl ≤ Real.cos x) (h4 : Real.cos x ≤ cu)
    (h5 : 0 ≤ sl) (h6 : 0 ≤ cl) :
    2 * sl * cl ≤ Real.sin (2 * x) ∧ Real.sin (2 * x) ≤ 2 * su * cu := by
  rw [Real.sin_two_mul]
  constructor <;> nlinarith

theorem cos_double_mem {x cl cu : ℝ} (h3 : cl ≤ Real.cos x)
    (h4 : Real.cos x ≤ cu) (h6 : 0 ≤ cl) :
    2 * cl ^ 2 - 1 ≤ Real.cos (2 * x) ∧ Real.cos (2 * x) ≤ 2 * cu ^ 2 - 1 := by
  rw [Real.cos_two_mul]
  constructor <;> nlinarith

theorem arctan_ge_of_tan_le {r c : ℝ} (h1 : -(π / 2) < c) (h2 : c < π / 2)
    (h3 : Real.tan c ≤ r) : c ≤ Real.arctan r := by
  have h := Real.arctan_strictMono.monotone h3
  rwa [Real.arctan_tan h1 h2] at h

theorem arctan_le_of_le_tan {r c : ℝ} (h1 : -(π / 2) < c) (h2 : c < π / 2)
    (h3 : r ≤ Real.tan c) : Real.arctan r ≤ c := by
  have h := Real.arctan_strictMono.monotone h3
  rwa [Real.arctan_tan h1 h2] at h

theorem tan_le_of_bounds {c s1 c1 : ℝ} (hs : Real.sin c ≤ s1)
    (hc : c1 ≤ Real.cos c) (hs0 : 0 ≤ s1) (hc0 : 0 < c1) :
    Real.tan c ≤ s1 / c1 := by
  rw [Real.tan_eq_sin_div_cos]
  exact div_le_div₀ hs0 hs hc0 hc

theorem le_tan_of_bounds {c s1 c1 : ℝ} (hs : s1 ≤ Real.sin c)
    (hc : Real.cos c ≤ c1) (hs0 : 0 ≤ s1) (hc0 : 0 < Real.cos c) :
    s1 / c1 ≤ Real.tan c := by
  rw [Real.tan_eq_sin_div_cos]
  exact div_le_div₀ (le_trans hs0 hs) hs hc0 hc

theorem atan2_mem_pi (y x : ℝ) : -π ≤ atan2 y x ∧ atan2 y x ≤ π := by
  have hpi := Real.pi_pos
  have ha1 := Real.arctan_lt_pi_div_two (y / x)
  have ha2 := Real.neg_pi_div_two_lt_arctan (y / x)
  unfold atan2
  split_ifs with h1 h2 h3 h4 h5
  · constructor <;> linarith
  · have hyx : y / x ≤ 0 := div_nonpos_iff.mpr (Or.inl ⟨h3, le_of_lt h2⟩)
    have harc : Real.arctan (y / x) ≤ 0 := by
      have h := Real.arctan_strictMono.monotone hyx
      rwa [Real.arctan_zero] at h
    constructor <;> linarith
  · have hy : y < 0 := lt_of_not_le h3
    have hyx : 0 < y / x := div_pos_iff.mpr (Or.inr ⟨hy, h2⟩)
    have harc : 0 ≤ Real.arctan (y / x) := by
      have h := Real.arctan_strictMono.monotone (le_of_lt hyx)
      rwa [Real.arctan_zero] at h
    constructor <;> linarith
  · constructor <;> linarith
  · constructor <;> linarith
  · constructor <;> linarith

theorem rad2deg_mem_of_pi (t : ℝ) (h1 : -π ≤ t) (h2 : t ≤ π) :
    -180 ≤ rad2deg t ∧ rad2deg t ≤ 180 := by
  have hpi := Real.pi_pos
  unfold rad2deg
  constructor
  · rw [le_div_iff₀ hpi]; nlinarith
  · rw [div_le_iff₀ hpi]; nlinarith

theorem le_rad2deg {t b : ℝ} (hb : 0 ≤ b) (h : b * 3.141593 ≤ t * 180) :
    b ≤ rad2deg t := by
  unfold rad2deg
  rw [le_div_iff₀ Real.pi_pos]
  have hpi : π ≤ 3.141593 := le_of_lt Real.pi_lt_d6
  nlinarith

theorem rad2deg_le {t b : ℝ} (ht : 0 ≤ t) (h : t * 180 ≤ b * 3.141592) :
    rad2deg t ≤ b := by
  unfold rad2deg
  rw [div_le_iff₀ Real.pi_pos]
  have hb : 0 ≤ b := by nlinarith
  have hpi : 3.141592 ≤ π := le_of_lt Real.pi_gt_d6
  nlinarith

/-- C5: for every zone, both psd93ToUTM and utmToPSD93 use a central
meridian of exactly 6 * zone - 183 degrees for the projection: each
coincides with the corresponding projection parameterized by an explicit
central meridian, instantiated at 6 * zone - 183. -/
theorem C5_theorem :
    (∀ lat lon zone : ℝ,
        ((psd93ToUTM lat lon zone).easting, (psd93ToUTM lat lon zone).northing) =
          utmForwardWithCM lat lon (6 * zone - 183)) ∧
    (∀ e n zone : ℝ,
        ((utmToPSD93 e n zone).lat, (utmToPSD93 e n zone).lon) =
          utmInverseWithCM e n (6 * zone - 183)) :=
  ⟨fun _ _ _ => rfl, fun _ _ _ => rfl⟩

/-- C8: every conversion function is deterministic; calls with identical
arguments return identical results (the embedding is a pure function of
its arguments, matching the stateless source). -/
theorem C8_theorem :
    ∀ a1 a2 a3 b1 b2 b3 : ℝ, a1 = b1 → a2 = b2 → a3 = b3 →
      wgs84ToPSD93 a1 a2 a3 = wgs84ToPSD93 b1 b2 b3 ∧
      psd93ToWGS84 a1 a2 a3 = psd93ToWGS84 b1 b2 b3 ∧
      psd93ToUTM a1 a2 a3 = psd93ToUTM b1 b2 b3 ∧
      utmToPSD93 a1 a2 a3 = utmToPSD93 b1 b2 b3 := by
  intro a1 a2 a3 b1 b2 b3 h1 h2 h3
  subst h1; subst h2; subst h3
  exact ⟨rfl, rfl, rfl, rfl⟩

/-- Witness for C8 at the Muscat reference input. -/
theorem C8_witness :
    wgs84ToPSD93 23.588 58.3829 0 = wgs84ToPSD93 23.588 58.3829 0 ∧
      psd93ToWGS84 23.588 58.3829 0 = psd93ToWGS84 23.588 58.3829 0 ∧
      psd93ToUTM 23.588 58.3829 0 = psd93ToUTM 23.588 58.3829 0 ∧
      utmToPSD93 23.588 58.3829 0 = utmToPSD93 23.588 58.3829 0 :=
  C8_theorem 23.588 58.3829 0 23.588 58.3829 0 rfl rfl rfl

/-- C9: the longitude produced by ecefToGeodetic, and hence the longitude
component of wgs84ToPSD93 and psd93ToWGS84, always lies in the interval
from -180 to 180 degrees, because it is rad2deg of an atan2 value. -/
theorem C9_theorem :
    (∀ X Y Z a f : ℝ,
        -180 ≤ (ecefToGeodetic X Y Z a f).2.1 ∧
          (ecefToGeodetic X Y Z a f).2.1 ≤ 180) ∧
    (∀ lat lon h : ℝ,
        -180 ≤ (wgs84ToPSD93 lat lon h).2.1 ∧
          (wgs84ToPSD93 lat lon h).2.1 ≤ 180) ∧
    (∀ lat lon h : ℝ,
        -180 ≤ (psd93ToWGS84 lat lon h).2.1 ∧
          (psd93ToWGS84 lat lon h).2.1 ≤ 180) := by
  have key : ∀ X Y Z a f : ℝ,
      -180 ≤ (ecefToGeodetic X Y Z a f).2.1 ∧
        (ecefToGeodetic X Y Z a f).2.1 ≤ 180 := by
    intro X Y Z a f
    have h : (ecefToGeodetic X Y Z a f).2.1 = rad2deg (atan2 Y X) := rfl
    rw [h]
    have hr := atan2_mem_pi Y X
    exact rad2deg_mem_of_pi (atan2 Y X) hr.1 hr.2
  exact ⟨key, fun lat lon h => key _ _ _ _ _, fun lat lon h => key _ _ _ _ _⟩

/-- C10: on the central meridian of its zone, psd93ToUTM returns easting
exactly 500000 (the series variable A vanishes), and the zone field of the
result always equals the input zone. -/
theorem C10_theorem :
    (∀ (lat : ℝ) (z : ℤ),
        (psd93ToUTM lat (6 * (z : ℝ) - 183) (z : ℝ)).easting = 500000) ∧
    (∀ lat lon zone : ℝ, (psd93ToUTM lat lon zone).zone = zone) := by
  constructor
  · intro lat z
    have hA : utmA (deg2rad lat) (deg2rad (6 * (z : ℝ) - 183))
        (deg2rad (6 * (z : ℝ) - 183)) = 0 := by
      unfold utmA; ring
    simp only [psd93ToUTM, hA]
    norm_num
  · intro lat lon zone
    rfl

/-- C6: psd93ToUTM uses scale factor 0.9996 and false easting 500000, and
the northing is 0.9996 times the meridional arc plus the correction
series with no false-northing offset; in particular the northing at the
equator is exactly 0. -/
theorem C6_theorem :
    (∀ lat lon zone : ℝ,
        (psd93ToUTM lat lon zone).easting =
          500000 +
            0.9996 * utmN (deg2rad lat) *
              (utmA (deg2rad lat) (deg2rad lon) (deg2rad (6 * zone - 183)) +
                (1 - utmT (deg2rad lat) + utmC (deg2rad lat)) *
                  utmA (deg2rad lat) (deg2rad lon) (deg2rad (6 * zone - 183)) ^ 3 / 6 +
                (5 - 18 * utmT (deg2rad lat) + utmT (deg2rad lat) * utmT (deg2rad lat) +
                    72 * utmC (deg2rad lat) - 58 * clarkeE2 / (1 - clarkeE2)) *
                  utmA (deg2rad lat) (deg2rad lon) (deg2rad (6 * zone - 183)) ^ 5 / 120) ∧
        (psd93ToUTM lat lon zone).northing =
          0.9996 *
            (utmM (deg2rad lat) +
              utmN (deg2rad lat) * Real.tan (deg2rad lat) *
                (utmA (deg2rad lat) (deg2rad lon) (deg2rad (6 * zone - 183)) *
                    utmA (deg2rad lat) (deg2rad lon) (deg2rad (6 * zone - 183)) / 2 +
                  (5 - utmT (deg2rad lat) + 9 * utmC (deg2rad lat) +
                      4 * utmC (deg2rad lat) * utmC (deg2rad lat)) *
                    utmA (deg2rad lat) (deg2rad lon) (deg2rad (6 * zone - 183)) ^ 4 / 24 +
                  (61 - 58 * utmT (deg2rad lat) + utmT (deg2rad lat) * utmT (deg2rad lat) +
                      600 * utmC (deg2rad lat) - 330 * clarkeE2 / (1 - clarkeE2)) *
                    utmA (deg2rad lat) (deg2rad lon) (deg2rad (6 * zone - 183)) ^ 6 / 720))) ∧
    (∀ lon zone : ℝ, (psd93ToUTM 0 lon zone).northing = 0) := by
  constructor
  · intro lat lon zone
    exact ⟨rfl, rfl⟩
  · intro lon zone
    have hz : deg2rad 0 = 0 := by unfold deg2rad; ring
    simp only [psd93ToUTM, hz]
    simp [utmM, Real.tan_zero]

/-- C2 counterexample: forward Helmert followed by the negated-parameter
inverse Helmert is not an exact algebraic inverse at the Cartesian stage.
At the origin, the Y coordinate of the round trip exceeds 1 centimeter
(far beyond floating-point rounding at this magnitude), so the round trip
does not return the original point. -/
theorem C2_counterexample :
    1 / 100 <
      (helmertInverse (helmertForward 0 0 0).1 (helmertForward 0 0 0).2.1
          (helmertForward 0 0 0).2.2).2.1 ∧
      helmertInverse (helmertForward 0 0 0).1 (helmertForward 0 0 0).2.1
          (helmertForward 0 0 0).2.2 ≠ ((0 : ℝ), (0 : ℝ), (0 : ℝ)) := by
  have hval : 1 / 100 <
      (helmertInverse (helmertForward 0 0 0).1 (helmertForward 0 0 0).2.1
          (helmertForward 0 0 0).2.2).2.1 := by
    simp only [helmertForward, helmertInverse, helmertParams, arcsec2rad]
    have hpl := Real.pi_gt_d6
    nlinarith
  refine ⟨hval, fun heq => ?_⟩
  have h2 := congrArg (fun p : ℝ × ℝ × ℝ => p.2.1) heq
  simp only at h2
  rw [h2] at hval
  norm_num at hval

set_option maxHeartbeats 2000000 in
/-- C2 amended: the negated-parameter inverse Helmert is a first-order
inverse of the forward Helmert: for Cartesian points with all coordinates
of absolute value at most 7 * 10^6 meters (Earth scale), the round trip
returns the original point to within 1/20 meter in every coordinate.  The
residual is second order in the small rotation and scale parameters, so
the round trip is close but not exact. -/
theorem C2_theorem (X Y Z : ℝ) (hX : |X| ≤ 7000000) (hY : |Y| ≤ 7000000)
    (hZ : |Z| ≤ 7000000) :
    |(helmertInverse (helmertForward X Y Z).1 (helmertForward X Y Z).2.1
          (helmertForward X Y Z).2.2).1 - X| ≤ 1 / 20 ∧
      |(helmertInverse (helmertForward X Y Z).1 (helmertForward X Y Z).2.1
          (helmertForward X Y Z).2.2).2.1 - Y| ≤ 1 / 20 ∧
      |(helmertInverse (helmertForward X Y Z).1 (helmertForward X Y Z).2.1
          (helmertForward X Y Z).2.2).2.2 - Z| ≤ 1 / 20 := by
  rw [abs_le] at hX hY hZ
  have hpl := Real.pi_gt_d6
  have hph := Real.pi_lt_d6
  have hrz1 : 0.0000404140 ≤ arcsec2rad 8.336 := by unfold arcsec2rad; nlinarith
  have hrz2 : arcsec2rad 8.336 ≤ 0.0000404141 := by unfold arcsec2rad; nlinarith
  have hry1 : -0.0000092018 ≤ arcsec2rad (-1.898) := by unfold arcsec2rad; nlinarith
  have hry2 : arcsec2rad (-1.898) ≤ 0 := by unfold arcsec2rad; nlinarith
  have hrx1 : -0.0000039270 ≤ arcsec2rad (-0.81) := by unfold arcsec2rad; nlinarith
  have hrx2 : arcsec2rad (-0.81) ≤ 0 := by unfold arcsec2rad; nlinarith
  have hs1 : (0 : ℝ) ≤ 16.71006 * 1e-6 := by norm_num
  have hs2 : (16.71006 : ℝ) * 1e-6 ≤ 0.0000167101 := by norm_num
  have hrz0 : (0 : ℝ) ≤ arcsec2rad 8.336 := le_trans (by norm_num) hrz1
  have p1 := mul_mem_sym hs1 hs2 hX.1 hX.2 (by norm_num : (0 : ℝ) ≤ 7000000)
  have p2 := mul_mem_sym hrz0 hrz2 hY.1 hY.2 (by norm_num : (0 : ℝ) ≤ 7000000)
  have p3 := mul_mem_symn hry2 hry1 hZ.1 hZ.2 (by norm_num : (0 : ℝ) ≤ 7000000)
    (by norm_num : (0 : ℝ) ≤ 0.0000092018)
  have hwx : -646 ≤ (-180.624 : ℝ) + 16.71006 * 1e-6 * X - arcsec2rad 8.336 * Y +
        arcsec2rad (-1.898) * Z ∧
      (-180.624 : ℝ) + 16.71006 * 1e-6 * X - arcsec2rad 8.336 * Y +
        arcsec2rad (-1.898) * Z ≤ 646 := by
    constructor <;> linarith [p1.1, p1.2, p2.1, p2.2, p3.1, p3.2]
  have p4 := mul_mem_sym hrz0 hrz2 hX.1 hX.2 (by norm_num : (0 : ℝ) ≤ 7000000)
  have p5 := mul_mem_sym hs1 hs2 hY.1 hY.2 (by norm_num : (0 : ℝ) ≤ 7000000)
  have p6 := mul_mem_symn hrx2 hrx1 hZ.1 hZ.2 (by norm_num : (0 : ℝ) ≤ 7000000)
    (by norm_num : (0 : ℝ) ≤ 0.0000039270)
  have hwy : -654 ≤ (-225.516 : ℝ) + arcsec2rad 8.336 * X + 16.71006 * 1e-6 * Y -
        arcsec2rad (-0.81) * Z ∧
      (-225.516 : ℝ) + arcsec2rad 8.336 * X + 16.71006 * 1e-6 * Y -
        arcsec2rad (-0.81) * Z ≤ 654 := by
    constructor <;> linarith [p4.1, p4.2, p5.1, p5.2, p6.1, p6.2]
  have p7 := mul_mem_symn hry2 hry1 hX.1 hX.2 (by norm_num : (0 : ℝ) ≤ 7000000)
    (by norm_num : (0 : ℝ) ≤ 0.0000092018)
  have p8 := mul_mem_symn hrx2 hrx1 hY.1 hY.2 (by norm_num : (0 : ℝ) ≤ 7000000)
    (by norm_num : (0 : ℝ) ≤ 0.0000039270)
  have p9 := mul_mem_sym hs1 hs2 hZ.1 hZ.2 (by norm_num : (0 : ℝ) ≤ 7000000)
  have hwz : -383 ≤ (173.919 : ℝ) - arcsec2rad (-1.898) * X + arcsec2rad (-0.81) * Y +
        16.71006 * 1e-6 * Z ∧
      (173.919 : ℝ) - arcsec2rad (-1.898) * X + arcsec2rad (-0.81) * Y +
        16.71006 * 1e-6 * Z ≤ 383 := by
    constructor <;> linarith [p7.1, p7.2, p8.1, p8.2, p9.1, p9.2]
  have q1 := mul_mem_sym hs1 hs2 hwx.1 hwx.2 (by norm_num : (0 : ℝ) ≤ 646)
  have q2 := mul_mem_sym hrz0 hrz2 hwy.1 hwy.2 (by norm_num : (0 : ℝ) ≤ 654)
  have q3 := mul_mem_symn hry2 hry1 hwz.1 hwz.2 (by norm_num : (0 : ℝ) ≤ 383)
    (by norm_num : (0 : ℝ) ≤ 0.0000092018)
  have q4 := mul_mem_sym hrz0 hrz2 hwx.1 hwx.2 (by norm_num : (0 : ℝ) ≤ 646)
  have q5 := mul_mem_sym hs1 hs2 hwy.1 hwy.2 (by norm_num : (0 : ℝ) ≤ 654)
  have q6 := mul_mem_symn hrx2 hrx1 hwz.1 hwz.2 (by norm_num : (0 : ℝ) ≤ 383)
    (by norm_num : (0 : ℝ) ≤ 0.0000039270)
  have q7 := mul_mem_symn hry2 hry1 hwx.1 hwx.2 (by norm_num : (0 : ℝ) ≤ 646)
    (by norm_num : (0 : ℝ) ≤ 0.0000092018)
  have q8 := mul_mem_symn hrx2 hrx1 hwy.1 hwy.2 (by norm_num : (0 : ℝ) ≤ 654)
    (by norm_num : (0 : ℝ) ≤ 0.0000039270)
  have q9 := mul_mem_sym hs1 hs2 hwz.1 hwz.2 (by norm_num : (0 : ℝ) ≤ 383)
  refine ⟨?_, ?_, ?_⟩
  · have hid : (helmertInverse (helmertForward X Y Z).1 (helmertForward X Y Z).2.1
          (helmertForward X Y Z).2.2).1 - X =
        -(16.71006 * 1e-6 *
            ((-180.624 : ℝ) + 16.71006 * 1e-6 * X - arcsec2rad 8.336 * Y +
              arcsec2rad (-1.898) * Z) -
          arcsec2rad 8.336 *
            ((-225.516 : ℝ) + arcsec2rad 8.336 * X + 16.71006 * 1e-6 * Y -
              arcsec2rad (-0.81) * Z) +
          arcsec2rad (-1.898) *
            ((173.919 : ℝ) - arcsec2rad (-1.898) * X + arcsec2rad (-0.81) * Y +
              16.71006 * 1e-6 * Z)) := by
      simp only [helmertForward, helmertInverse, helmertParams]
      ring
    rw [hid, abs_neg, abs_le]
    constructor <;> linarith [q1.1, q1.2, q2.1, q2.2, q3.1, q3.2]
  · have hid : (helmertInverse (helmertForward X Y Z).1 (helmertForward X Y Z).2.1
          (helmertForward X Y Z).2.2).2.1 - Y =
        -(arcsec2rad 8.336 *
            ((-180.624 : ℝ) + 16.71006 * 1e-6 * X - arcsec2rad 8.336 * Y +
              arcsec2rad (-1.898) * Z) +
          16.71006 * 1e-6 *
            ((-225.516 : ℝ) + arcsec2rad 8.336 * X + 16.71006 * 1e-6 * Y -
              arcsec2rad (-0.81) * Z) -
          arcsec2rad (-0.81) *
            ((173.919 : ℝ) - arcsec2rad (-1.898) * X + arcsec2rad (-0.81) * Y +
              16.71006 * 1e-6 * Z)) := by
      simp only [helmertForward, helmertInverse, helmertParams]
      ring
    rw [hid, abs_neg, abs_le]
    constructor <;> linarith [q4.1, q4.2, q5.1, q5.2, q6.1, q6.2]
  · have hid : (helmertInverse (helmertForward X Y Z).1 (helmertForward X Y Z).2.1
          (helmertForward X Y Z).2.2).2.2 - Z =
        -(-(arcsec2rad (-1.898) *
              ((-180.624 : ℝ) + 16.71006 * 1e-6 * X - arcsec2rad 8.336 * Y +
                arcsec2rad (-1.898) * Z)) +
          arcsec2rad (-0.81) *
            ((-225.516 : ℝ) + arcsec2rad 8.336 * X + 16.71006 * 1e-6 * Y -
              arcsec2rad (-0.81) * Z) +
          16.71006 * 1e-6 *
            ((173.919 : ℝ) - arcsec2rad (-1.898) * X + arcsec2rad (-0.81) * Y +
              16.71006 * 1e-6 * Z)) := by
      simp only [helmertForward, helmertInverse, helmertParams]
      ring
    rw [hid, abs_neg, abs_le]
    constructor <;> linarith [q7.1, q7.2, q8.1, q8.2, q9.1, q9.2]

/-- Witness for C2 at the origin. -/
theorem C2_witness :
    |(helmertInverse (helmertForward 0 0 0).1 (helmertForward 0 0 0).2.1
          (helmertForward 0 0 0).2.2).1 - 0| ≤ 1 / 20 ∧
      |(helmertInverse (helmertForward 0 0 0).1 (helmertForward 0 0 0).2.1
          (helmertForward 0 0 0).2.2).2.1 - 0| ≤ 1 / 20 ∧
      |(helmertInverse (helmertForward 0 0 0).1 (helmertForward 0 0 0).2.1
          (helmertForward 0 0 0).2.2).2.2 - 0| ≤ 1 / 20 :=
  C2_theorem 0 0 0 (by norm_num) (by norm_num) (by norm_num)

set_option maxHeartbeats 2000000 in
theorem muscat_utm_box (lat lon : ℝ) (hlat1 : 23.4 ≤ lat) (hlat2 : lat ≤ 23.8)
    (hlon1 : 58.2 ≤ lon) (hlon2 : lon ≤ 58.6) :
    600000 < (psd93ToUTM lat lon 40).easting ∧
      (psd93ToUTM lat lon 40).easting < 700000 ∧
      2500000 < (psd93ToUTM lat lon 40).northing ∧
      (psd93ToUTM lat lon 40).northing < 2700000 := by
  have hpl := Real.pi_gt_d6
  have hph := Real.pi_lt_d6
  have hlr : 0.40840696 ≤ deg2rad lat ∧ deg2rad lat ≤ 0.41538841 := by
    unfold deg2rad; constructor <;> nlinarith
  have hx : 0.10210174 ≤ deg2rad lat / 4 ∧ deg2rad lat / 4 ≤ 0.10384711 :=
    ⟨by linarith [hlr.1], by linarith [hlr.2]⟩
  have hs1 := sin_mem (by norm_num) hx.1 hx.2 (by norm_num)
  have hc1 := cos_mem (by norm_num) hx.1 hx.2 (by norm_num)
  have hs1b : 0.101909 ≤ Real.sin (deg2rad lat / 4) ∧
      Real.sin (deg2rad lat / 4) ≤ 0.1036758 :=
    ⟨le_trans (by norm_num) hs1.1, le_trans hs1.2 (by norm_num)⟩
  have hc1b : 0.9946018 ≤ Real.cos (deg2rad lat / 4) ∧
      Real.cos (deg2rad lat / 4) ≤ 0.9947937 :=
    ⟨le_trans (by norm_num) hc1.1, le_trans hc1.2 (by norm_num)⟩
  have hs2 := sin_double_mem hs1b.1 hs1b.2 hc1b.1 hc1b.2 (by norm_num) (by norm_num)
  have hc2 := cos_double_mem hc1b.1 hc1b.2 (by norm_num)
  have hs2b : 0.2027177 ≤ Real.sin (2 * (deg2rad lat / 4)) ∧
      Real.sin (2 * (deg2rad lat / 4)) ≤ 0.2062721 :=
    ⟨le_trans (by norm_num) hs2.1, le_trans hs2.2 (by norm_num)⟩
  have hc2b : 0.9784654 ≤ Real.cos (2 * (deg2rad lat / 4)) ∧
      Real.cos (2 * (deg2rad lat / 4)) ≤ 0.9792291 :=
    ⟨le_trans (by norm_num) hc2.1, le_trans hc2.2 (by norm_num)⟩
  have hs4 := sin_double_mem hs2b.1 hs2b.2 hc2b.1 hc2b.2 (by norm_num) (by norm_num)
  have hc4 := cos_double_mem hc2b.1 hc2b.2 (by norm_num)
  have hang : 2 * (2 * (deg2rad lat / 4)) = deg2rad lat := by ring
  rw [hang] at hs4 hc4
  have hs4b : 0.3967045 ≤ Real.sin (deg2rad lat) ∧
      Real.sin (deg2rad lat) ≤ 0.4039753 :=
    ⟨le_trans (by norm_num) hs4.1, le_trans hs4.2 (by norm_num)⟩
  have hc4b : 0.914789 ≤ Real.cos (deg2rad lat) ∧
      Real.cos (deg2rad lat) ≤ 0.9177793 :=
    ⟨le_trans (by norm_num) hc4.1, le_trans hc4.2 (by norm_num)⟩
  have htanb : 0.432243 ≤ Real.tan (deg2rad lat) ∧
      Real.tan (deg2rad lat) ≤ 0.441605 := by
    rw [Real.tan_eq_sin_div_cos]
    have hd := div_mem_pp hs4b.1 hs4b.2 hc4b.1 hc4b.2 (by norm_num) (by norm_num)
    exact ⟨le_trans (by norm_num) hd.1, le_trans hd.2 (by norm_num)⟩
  have he2 : 0.006803511282 ≤ clarkeE2 ∧ clarkeE2 ≤ 0.006803511283 := by
    unfold clarkeE2 clarkeF; constructor <;> norm_num
  have hDelta : 0.0209439 ≤ deg2rad lon - deg2rad (6 * 40 - 183) ∧
      deg2rad lon - deg2rad (6 * 40 - 183) ≤ 0.0279253 := by
    unfold deg2rad; constructor <;> nlinarith
  have hA : 0.0191592 ≤ utmA (deg2rad lat) (deg2rad lon) (deg2rad (6 * 40 - 183)) ∧
      utmA (deg2rad lat) (deg2rad lon) (deg2rad (6 * 40 - 183)) ≤ 0.0256293 := by
    unfold utmA
    have hm := mul_mem_pp hc4b.1 hc4b.2 hDelta.1 hDelta.2 (by norm_num) (by norm_num)
    exact ⟨le_trans (by norm_num) hm.1, le_trans hm.2 (by norm_num)⟩
  have hT : 0.186834 ≤ utmT (deg2rad lat) ∧ utmT (deg2rad lat) ≤ 0.195015 := by
    unfold utmT
    have hm := mul_mem_pp htanb.1 htanb.2 htanb.1 htanb.2 (by norm_num) (by norm_num)
    exact ⟨le_trans (by norm_num) hm.1, le_trans hm.2 (by norm_num)⟩
  have he2s : 0.0026989 ≤ clarkeE2 * Real.sin (deg2rad lat) ∧
      clarkeE2 * Real.sin (deg2rad lat) ≤ 0.0027485 := by
    have hm := mul_mem_pp he2.1 he2.2 hs4b.1 hs4b.2 (by norm_num) (by norm_num)
    exact ⟨le_trans (by norm_num) hm.1, le_trans hm.2 (by norm_num)⟩
  have he2ss : 0.0010706 ≤ clarkeE2 * Real.sin (deg2rad lat) * Real.sin (deg2rad lat) ∧
      clarkeE2 * Real.sin (deg2rad lat) * Real.sin (deg2rad lat) ≤ 0.0011104 := by
    have hm := mul_mem_pp he2s.1 he2s.2 hs4b.1 hs4b.2 (by norm_num) (by norm_num)
    exact ⟨le_trans (by norm_num) hm.1, le_trans hm.2 (by norm_num)⟩
  have hv : 0.9988896 ≤ 1 - clarkeE2 * Real.sin (deg2rad lat) * Real.sin (deg2rad lat) ∧
      1 - clarkeE2 * Real.sin (deg2rad lat) * Real.sin (deg2rad lat) ≤ 0.9989294 :=
    ⟨by linarith [he2ss.2], by linarith [he2ss.1]⟩
  have hsq := sqrt_mem hv.1 hv.2 (by norm_num : (0 : ℝ) ≤ 0.9994446) (by norm_num)
    (by norm_num : (0 : ℝ) ≤ 0.9994646) (by norm_num)
  have hN : 6381665.8 ≤ utmN (deg2rad lat) ∧ utmN (deg2rad lat) ≤ 6381793.6 := by
    unfold utmN clarkeA
    have hd := div_mem_pp (le_refl (6378249.145 : ℝ)) (le_refl (6378249.145 : ℝ))
      hsq.1 hsq.2 (by norm_num) (by norm_num)
    exact ⟨le_trans (by norm_num) hd.1, le_trans hd.2 (by norm_num)⟩
  have hep2 : 0.006850116125 ≤ clarkeE2 / (1 - clarkeE2) ∧
      clarkeE2 / (1 - clarkeE2) ≤ 0.006850116126 := by
    unfold clarkeE2 clarkeF; constructor <;> norm_num
  have hepc : 0.0062664 ≤ clarkeE2 / (1 - clarkeE2) * Real.cos (deg2rad lat) ∧
      clarkeE2 / (1 - clarkeE2) * Real.cos (deg2rad lat) ≤ 0.0062869 := by
    have hm := mul_mem_pp hep2.1 hep2.2 hc4b.1 hc4b.2 (by norm_num) (by norm_num)
    exact ⟨le_trans (by norm_num) hm.1, le_trans hm.2 (by norm_num)⟩
  have hC : 0.0057324 ≤ utmC (deg2rad lat) ∧ utmC (deg2rad lat) ≤ 0.00577 := by
    unfold utmC
    have hm := mul_mem_pp hepc.1 hepc.2 hc4b.1 hc4b.2 (by norm_num) (by norm_num)
    exact ⟨le_trans (by norm_num) hm.1, le_trans hm.2 (by norm_num)⟩
  have hA0 : (0 : ℝ) ≤ utmA (deg2rad lat) (deg2rad lon) (deg2rad (6 * 40 - 183)) :=
    le_trans (by norm_num) hA.1
  have hA3 : 0.00000703286 ≤
      utmA (deg2rad lat) (deg2rad lon) (deg2rad (6 * 40 - 183)) ^ 3 ∧
      utmA (deg2rad lat) (deg2rad lon) (deg2rad (6 * 40 - 183)) ^ 3 ≤ 0.00001683489 :=
    ⟨le_trans (by norm_num) (pow_le_pow_left₀ (by norm_num) hA.1 3),
     le_trans (pow_le_pow_left₀ hA0 hA.2 3) (by norm_num)⟩
  have hA5 : 0.00000000258158 ≤
      utmA (deg2rad lat) (deg2rad lon) (deg2rad (6 * 40 - 183)) ^ 5 ∧
      utmA (deg2rad lat) (deg2rad lon) (deg2rad (6 * 40 - 183)) ^ 5 ≤ 0.00000001105819 :=
    ⟨le_trans (by norm_num) (pow_le_pow_left₀ (by norm_num) hA.1 5),
     le_trans (pow_le_pow_left₀ hA0 hA.2 5) (by norm_num)⟩
  have hAA : 0.000367074 ≤
      utmA (deg2rad lat) (deg2rad lon) (deg2rad (6 * 40 - 183)) *
        utmA (deg2rad lat) (deg2rad lon) (deg2rad (6 * 40 - 183)) ∧
      utmA (deg2rad lat) (deg2rad lon) (deg2rad (6 * 40 - 183)) *
        utmA (deg2rad lat) (deg2rad lon) (deg2rad (6 * 40 - 183)) ≤ 0.000656862 := by
    have hm := mul_mem_pp hA.1 hA.2 hA.1 hA.2 (by norm_num) (by norm_num)
    exact ⟨le_trans (by norm_num) hm.1, le_trans hm.2 (by norm_num)⟩
  have hA4 : 0.000000134744 ≤
      utmA (deg2rad lat) (deg2rad lon) (deg2rad (6 * 40 - 183)) ^ 4 ∧
      utmA (deg2rad lat) (deg2rad lon) (deg2rad (6 * 40 - 183)) ^ 4 ≤ 0.0000004314664 :=
    ⟨le_trans (by norm_num) (pow_le_pow_left₀ (by norm_num) hA.1 4),
     le_trans (pow_le_pow_left₀ hA0 hA.2 4) (by norm_num)⟩
  have hA6 : 0.0000000000494611 ≤
      utmA (deg2rad lat) (deg2rad lon) (deg2rad (6 * 40 - 183)) ^ 6 ∧
      utmA (deg2rad lat) (deg2rad lon) (deg2rad (6 * 40 - 183)) ^ 6 ≤ 0.0000000002834135 :=
    ⟨le_trans (by norm_num) (pow_le_pow_left₀ (by norm_num) hA.1 6),
     le_trans (pow_le_pow_left₀ hA0 hA.2 6) (by norm_num)⟩
  have hc3f : 0.8107174 ≤ 1 - utmT (deg2rad lat) + utmC (deg2rad lat) ∧
      1 - utmT (deg2rad lat) + utmC (deg2rad lat) ≤ 0.818936 :=
    ⟨by linarith [hT.2, hC.1], by linarith [hT.1, hC.2]⟩
  have hTT : 0.034906 ≤ utmT (deg2rad lat) * utmT (deg2rad lat) ∧
      utmT (deg2rad lat) * utmT (deg2rad lat) ≤ 0.038031 := by
    have hm := mul_mem_pp hT.1 hT.2 hT.1 hT.2 (by norm_num) (by norm_num)
    exact ⟨le_trans (by norm_num) hm.1, le_trans hm.2 (by norm_num)⟩
  have ht58 : 0.3973067 ≤ 58 * clarkeE2 / (1 - clarkeE2) ∧
      58 * clarkeE2 / (1 - clarkeE2) ≤ 0.3973068 := by
    unfold clarkeE2 clarkeF; constructor <;> norm_num
  have hc5f : 1.540062 ≤ 5 - 18 * utmT (deg2rad lat) +
        utmT (deg2rad lat) * utmT (deg2rad lat) + 72 * utmC (deg2rad lat) -
        58 * clarkeE2 / (1 - clarkeE2) ∧
      5 - 18 * utmT (deg2rad lat) + utmT (deg2rad lat) * utmT (deg2rad lat) +
        72 * utmC (deg2rad lat) - 58 * clarkeE2 / (1 - clarkeE2) ≤ 1.693153 :=
    ⟨by linarith [hT.2, hTT.1, hC.1, ht58.2], by linarith [hT.1, hTT.2, hC.2, ht58.1]⟩
  have hP3 : 0.0000057016 ≤ (1 - utmT (deg2rad lat) + utmC (deg2rad lat)) *
        utmA (deg2rad lat) (deg2rad lon) (deg2rad (6 * 40 - 183)) ^ 3 ∧
      (1 - utmT (deg2rad lat) + utmC (deg2rad lat)) *
        utmA (deg2rad lat) (deg2rad lon) (deg2rad (6 * 40 - 183)) ^ 3 ≤ 0.0000137867 := by
    have hm := mul_mem_pp hc3f.1 hc3f.2 hA3.1 hA3.2 (by norm_num) (by norm_num)
    exact ⟨le_trans (by norm_num) hm.1, le_trans hm.2 (by norm_num)⟩
  have hP5 : 0.000000003975 ≤ (5 - 18 * utmT (deg2rad lat) +
        utmT (deg2rad lat) * utmT (deg2rad lat) + 72 * utmC (deg2rad lat) -
        58 * clarkeE2 / (1 - clarkeE2)) *
        utmA (deg2rad lat) (deg2rad lon) (deg2rad (6 * 40 - 183)) ^ 5 ∧
      (5 - 18 * utmT (deg2rad lat) + utmT (deg2rad lat) * utmT (deg2rad lat) +
        72 * utmC (deg2rad lat) - 58 * clarkeE2 / (1 - clarkeE2)) *
        utmA (deg2rad lat) (deg2rad lon) (deg2rad (6 * 40 - 183)) ^ 5 ≤
        0.000000018724 := by
    have hm := mul_mem_pp hc5f.1 hc5f.2 hA5.1 hA5.2 (by norm_num) (by norm_num)
    exact ⟨le_trans (by norm_num) hm.1, le_trans hm.2 (by norm_num)⟩
  have hKN : 6379113.1 ≤ utmK0 * utmN (deg2rad lat) ∧
      utmK0 * utmN (deg2rad lat) ≤ 6379240.9 := by
    have hk0 : utmK0 = 0.9996 := rfl
    rw [hk0]
    exact ⟨by linarith [hN.1], by linarith [hN.2]⟩
  have hBIG : 0.0191601 ≤
      utmA (deg2rad lat) (deg2rad lon) (deg2rad (6 * 40 - 183)) +
        (1 - utmT (deg2rad lat) + utmC (deg2rad lat)) *
          utmA (deg2rad lat) (deg2rad lon) (deg2rad (6 * 40 - 183)) ^ 3 / 6 +
        (5 - 18 * utmT (deg2rad lat) + utmT (deg2rad lat) * utmT (deg2rad lat) +
          72 * utmC (deg2rad lat) - 58 * clarkeE2 / (1 - clarkeE2)) *
          utmA (deg2rad lat) (deg2rad lon) (deg2rad (6 * 40 - 183)) ^ 5 / 120 ∧
      utmA (deg2rad lat) (deg2rad lon) (deg2rad (6 * 40 - 183)) +
        (1 - utmT (deg2rad lat) + utmC (deg2rad lat)) *
          utmA (deg2rad lat) (deg2rad lon) (deg2rad (6 * 40 - 183)) ^ 3 / 6 +
        (5 - 18 * utmT (deg2rad lat) + utmT (deg2rad lat) * utmT (deg2rad lat) +
          72 * utmC (deg2rad lat) - 58 * clarkeE2 / (1 - clarkeE2)) *
          utmA (deg2rad lat) (deg2rad lon) (deg2rad (6 * 40 - 183)) ^ 5 / 120 ≤
        0.0256316 :=
    ⟨by linarith [hA.1, hP3.1, hP5.1], by linarith [hA.2, hP3.2, hP5.2]⟩
  have hProd := mul_mem_pp hKN.1 hKN.2 hBIG.1 hBIG.2 (by norm_num) (by norm_num)
  have heast : (psd93ToUTM lat lon 40).easting =
      500000 + utmK0 * utmN (deg2rad lat) *
        (utmA (deg2rad lat) (deg2rad lon) (deg2rad (6 * 40 - 183)) +
          (1 - utmT (deg2rad lat) + utmC (deg2rad lat)) *
            utmA (deg2rad lat) (deg2rad lon) (deg2rad (6 * 40 - 183)) ^ 3 / 6 +
          (5 - 18 * utmT (deg2rad lat) + utmT (deg2rad lat) * utmT (deg2rad lat) +
            72 * utmC (deg2rad lat) - 58 * clarkeE2 / (1 - clarkeE2)) *
            utmA (deg2rad lat) (deg2rad lon) (deg2rad (6 * 40 - 183)) ^ 5 / 120) := rfl
  have hs2l := sin_double_mem hs4b.1 hs4b.2 hc4b.1 hc4b.2 (by norm_num) (by norm_num)
  have hs2lb : 0.725801 ≤ Real.sin (2 * deg2rad lat) ∧
      Real.sin (2 * deg2rad lat) ≤ 0.741521 :=
    ⟨le_trans (by norm_num) hs2l.1, le_trans hs2l.2 (by norm_num)⟩
  have hsin4 : -1 ≤ Real.sin (4 * deg2rad lat) ∧ Real.sin (4 * deg2rad lat) ≤ 1 :=
    ⟨Real.neg_one_le_sin _, Real.sin_le_one _⟩
  have hsin6 : -1 ≤ Real.sin (6 * deg2rad lat) ∧ Real.sin (6 * deg2rad lat) ≤ 1 :=
    ⟨Real.neg_one_le_sin _, Real.sin_le_one _⟩
  have hc0 : 0.9982969462 ≤ 1 - clarkeE2 / 4 - 3 * clarkeE2 * clarkeE2 / 64 -
        5 * clarkeE2 * clarkeE2 * clarkeE2 / 256 ∧
      1 - clarkeE2 / 4 - 3 * clarkeE2 * clarkeE2 / 64 -
        5 * clarkeE2 * clarkeE2 * clarkeE2 / 256 ≤ 0.9982969463 := by
    unfold clarkeE2 clarkeF; constructor <;> norm_num
  have hc2M : 0.00255567 ≤ 3 * clarkeE2 / 8 + 3 * clarkeE2 * clarkeE2 / 32 +
        45 * clarkeE2 * clarkeE2 * clarkeE2 / 1024 ∧
      3 * clarkeE2 / 8 + 3 * clarkeE2 * clarkeE2 / 32 +
        45 * clarkeE2 * clarkeE2 * clarkeE2 / 1024 ≤ 0.0025556701 := by
    unfold clarkeE2 clarkeF; constructor <;> norm_num
  have hc4M : 0.000002726013 ≤ 15 * clarkeE2 * clarkeE2 / 256 +
        45 * clarkeE2 * clarkeE2 * clarkeE2 / 1024 ∧
      15 * clarkeE2 * clarkeE2 / 256 +
        45 * clarkeE2 * clarkeE2 * clarkeE2 / 1024 ≤ 0.000002726014 := by
    unfold clarkeE2 clarkeF; constructor <;> norm_num
  have hc6M : 0.00000000358794 ≤ 35 * clarkeE2 * clarkeE2 * clarkeE2 / 3072 ∧
      35 * clarkeE2 * clarkeE2 * clarkeE2 / 3072 ≤ 0.00000000358795 := by
    unfold clarkeE2 clarkeF; constructor <;> norm_num
  have hMc0 : 0.40771142 ≤ (1 - clarkeE2 / 4 - 3 * clarkeE2 * clarkeE2 / 64 -
        5 * clarkeE2 * clarkeE2 * clarkeE2 / 256) * deg2rad lat ∧
      (1 - clarkeE2 / 4 - 3 * clarkeE2 * clarkeE2 / 64 -
        5 * clarkeE2 * clarkeE2 * clarkeE2 / 256) * deg2rad lat ≤ 0.41468099 := by
    have hm := mul_mem_pp hc0.1 hc0.2 hlr.1 hlr.2 (by norm_num) (by norm_num)
    exact ⟨le_trans (by norm_num) hm.1, le_trans hm.2 (by norm_num)⟩
  have hMc2 : 0.0018549 ≤ (3 * clarkeE2 / 8 + 3 * clarkeE2 * clarkeE2 / 32 +
        45 * clarkeE2 * clarkeE2 * clarkeE2 / 1024) * Real.sin (2 * deg2rad lat) ∧
      (3 * clarkeE2 / 8 + 3 * clarkeE2 * clarkeE2 / 32 +
        45 * clarkeE2 * clarkeE2 * clarkeE2 / 1024) * Real.sin (2 * deg2rad lat) ≤
        0.00189509 := by
    have hm := mul_mem_pp hc2M.1 hc2M.2 hs2lb.1 hs2lb.2 (by norm_num) (by norm_num)
    exact ⟨le_trans (by norm_num) hm.1, le_trans hm.2 (by norm_num)⟩
  have hMc4 := mul_mem_sym (le_trans (by norm_num) hc4M.1) hc4M.2 hsin4.1 hsin4.2
    (by norm_num : (0 : ℝ) ≤ 1)
  have hMc6 := mul_mem_sym (le_trans (by norm_num) hc6M.1) hc6M.2 hsin6.1 hsin6.2
    (by norm_num : (0 : ℝ) ≤ 1)
  have hMinner : 0.4058136 ≤ (1 - clarkeE2 / 4 - 3 * clarkeE2 * clarkeE2 / 64 -
        5 * clarkeE2 * clarkeE2 * clarkeE2 / 256) * deg2rad lat -
        (3 * clarkeE2 / 8 + 3 * clarkeE2 * clarkeE2 / 32 +
          45 * clarkeE2 * clarkeE2 * clarkeE2 / 1024) * Real.sin (2 * deg2rad lat) +
        (15 * clarkeE2 * clarkeE2 / 256 +
          45 * clarkeE2 * clarkeE2 * clarkeE2 / 1024) * Real.sin (4 * deg2rad lat) -
        (35 * clarkeE2 * clarkeE2 * clarkeE2 / 3072) * Real.sin (6 * deg2rad lat) ∧
      (1 - clarkeE2 / 4 - 3 * clarkeE2 * clarkeE2 / 64 -
        5 * clarkeE2 * clarkeE2 * clarkeE2 / 256) * deg2rad lat -
        (3 * clarkeE2 / 8 + 3 * clarkeE2 * clarkeE2 / 32 +
          45 * clarkeE2 * clarkeE2 * clarkeE2 / 1024) * Real.sin (2 * deg2rad lat) +
        (15 * clarkeE2 * clarkeE2 / 256 +
          45 * clarkeE2 * clarkeE2 * clarkeE2 / 1024) * Real.sin (4 * deg2rad lat) -
        (35 * clarkeE2 * clarkeE2 * clarkeE2 / 3072) * Real.sin (6 * deg2rad lat) ≤
        0.41282882 :=
    ⟨by linarith [hMc0.1, hMc2.2, hMc4.1, hMc6.2],
     by linarith [hMc0.2, hMc2.1, hMc4.2, hMc6.1]⟩
  have hM : 2588380 ≤ utmM (deg2rad lat) ∧ utmM (deg2rad lat) ≤ 2633126 := by
    unfold utmM clarkeA
    have hm := mul_mem_pp (le_refl (6378249.145 : ℝ)) (le_refl (6378249.145 : ℝ))
      hMinner.1 hMinner.2 (by norm_num) (by norm_num)
    exact ⟨le_trans (by norm_num) hm.1, le_trans hm.2 (by norm_num)⟩
  have hCC : 0.00003286 ≤ utmC (deg2rad lat) * utmC (deg2rad lat) ∧
      utmC (deg2rad lat) * utmC (deg2rad lat) ≤ 0.000033293 := by
    have hm := mul_mem_pp hC.1 hC.2 hC.1 hC.2 (by norm_num) (by norm_num)
    exact ⟨le_trans (by norm_num) hm.1, le_trans hm.2 (by norm_num)⟩
  have hc4corr : 4.856708 ≤ 5 - utmT (deg2rad lat) + 9 * utmC (deg2rad lat) +
        4 * utmC (deg2rad lat) * utmC (deg2rad lat) ∧
      5 - utmT (deg2rad lat) + 9 * utmC (deg2rad lat) +
        4 * utmC (deg2rad lat) * utmC (deg2rad lat) ≤ 4.86523 :=
    ⟨by linarith [hT.2, hC.1, hCC.1], by linarith [hT.1, hC.2, hCC.2]⟩
  have ht330 : 2.260538 ≤ 330 * clarkeE2 / (1 - clarkeE2) ∧
      330 * clarkeE2 / (1 - clarkeE2) ≤ 2.260539 := by
    unfold clarkeE2 clarkeF; constructor <;> norm_num
  have hc6corr : 50.90293 ≤ 61 - 58 * utmT (deg2rad lat) +
        utmT (deg2rad lat) * utmT (deg2rad lat) + 600 * utmC (deg2rad lat) -
        330 * clarkeE2 / (1 - clarkeE2) ∧
      61 - 58 * utmT (deg2rad lat) + utmT (deg2rad lat) * utmT (deg2rad lat) +
        600 * utmC (deg2rad lat) - 330 * clarkeE2 / (1 - clarkeE2) ≤ 51.40313 :=
    ⟨by linarith [hT.2, hTT.1, hC.1, ht330.2],
     by linarith [hT.1, hTT.2, hC.2, ht330.1]⟩
  have hP4 : 0.000000654 ≤ (5 - utmT (deg2rad lat) + 9 * utmC (deg2rad lat) +
        4 * utmC (deg2rad lat) * utmC (deg2rad lat)) *
        utmA (deg2rad lat) (deg2rad lon) (deg2rad (6 * 40 - 183)) ^ 4 ∧
      (5 - utmT (deg2rad lat) + 9 * utmC (deg2rad lat) +
        4 * utmC (deg2rad lat) * utmC (deg2rad lat)) *
        utmA (deg2rad lat) (deg2rad lon) (deg2rad (6 * 40 - 183)) ^ 4 ≤ 0.0000021 := by
    have hm := mul_mem_pp hc4corr.1 hc4corr.2 hA4.1 hA4.2 (by norm_num) (by norm_num)
    exact ⟨le_trans (by norm_num) hm.1, le_trans hm.2 (by norm_num)⟩
  have hP6 : 0.00000000251 ≤ (61 - 58 * utmT (deg2rad lat) +
        utmT (deg2rad lat) * utmT (deg2rad lat) + 600 * utmC (deg2rad lat) -
        330 * clarkeE2 / (1 - clarkeE2)) *
        utmA (deg2rad lat) (deg2rad lon) (deg2rad (6 * 40 - 183)) ^ 6 ∧
      (61 - 58 * utmT (deg2rad lat) + utmT (deg2rad lat) * utmT (deg2rad lat) +
        600 * utmC (deg2rad lat) - 330 * clarkeE2 / (1 - clarkeE2)) *
        utmA (deg2rad lat) (deg2rad lon) (deg2rad (6 * 40 - 183)) ^ 6 ≤
        0.00000001457 := by
    have hm := mul_mem_pp hc6corr.1 hc6corr.2 hA6.1 hA6.2 (by norm_num) (by norm_num)
    exact ⟨le_trans (by norm_num) hm.1, le_trans hm.2 (by norm_num)⟩
  have hstuff : 0.00018356 ≤
      utmA (deg2rad lat) (deg2rad lon) (deg2rad (6 * 40 - 183)) *
          utmA (deg2rad lat) (deg2rad lon) (deg2rad (6 * 40 - 183)) / 2 +
        (5 - utmT (deg2rad lat) + 9 * utmC (deg2rad lat) +
          4 * utmC (deg2rad lat) * utmC (deg2rad lat)) *
          utmA (deg2rad lat) (deg2rad lon) (deg2rad (6 * 40 - 183)) ^ 4 / 24 +
        (61 - 58 * utmT (deg2rad lat) + utmT (deg2rad lat) * utmT (deg2rad lat) +
          600 * utmC (deg2rad lat) - 330 * clarkeE2 / (1 - clarkeE2)) *
          utmA (deg2rad lat) (deg2rad lon) (deg2rad (6 * 40 - 183)) ^ 6 / 720 ∧
      utmA (deg2rad lat) (deg2rad lon) (deg2rad (6 * 40 - 183)) *
          utmA (deg2rad lat) (deg2rad lon) (deg2rad (6 * 40 - 183)) / 2 +
        (5 - utmT (deg2rad lat) + 9 * utmC (deg2rad lat) +
          4 * utmC (deg2rad lat) * utmC (deg2rad lat)) *
          utmA (deg2rad lat) (deg2rad lon) (deg2rad (6 * 40 - 183)) ^ 4 / 24 +
        (61 - 58 * utmT (deg2rad lat) + utmT (deg2rad lat) * utmT (deg2rad lat) +
          600 * utmC (deg2rad lat) - 330 * clarkeE2 / (1 - clarkeE2)) *
          utmA (deg2rad lat) (deg2rad lon) (deg2rad (6 * 40 - 183)) ^ 6 / 720 ≤
        0.00032852 :=
    ⟨by linarith [hAA.1, hP4.1, hP6.1], by linarith [hAA.2, hP4.2, hP6.2]⟩
  have hNtan : 2758430.3 ≤ utmN (deg2rad lat) * Real.tan (deg2rad lat) ∧
      utmN (deg2rad lat) * Real.tan (deg2rad lat) ≤ 2818232 := by
    have hm := mul_mem_pp hN.1 hN.2 htanb.1 htanb.2 (by norm_num) (by norm_num)
    exact ⟨le_trans (by norm_num) hm.1, le_trans hm.2 (by norm_num)⟩
  have hNTS := mul_mem_pp hNtan.1 hNtan.2 hstuff.1 hstuff.2 (by norm_num) (by norm_num)
  have hnorth : (psd93ToUTM lat lon 40).northing =
      utmK0 * (utmM (deg2rad lat) +
        utmN (deg2rad lat) * Real.tan (deg2rad lat) *
          (utmA (deg2rad lat) (deg2rad lon) (deg2rad (6 * 40 - 183)) *
              utmA (deg2rad lat) (deg2rad lon) (deg2rad (6 * 40 - 183)) / 2 +
            (5 - utmT (deg2rad lat) + 9 * utmC (deg2rad lat) +
              4 * utmC (deg2rad lat) * utmC (deg2rad lat)) *
              utmA (deg2rad lat) (deg2rad lon) (deg2rad (6 * 40 - 183)) ^ 4 / 24 +
            (61 - 58 * utmT (deg2rad lat) +
              utmT (deg2rad lat) * utmT (deg2rad lat) + 600 * utmC (deg2rad lat) -
              330 * clarkeE2 / (1 - clarkeE2)) *
              utmA (deg2rad lat) (deg2rad lon) (deg2rad (6 * 40 - 183)) ^ 6 / 720)) :=
    rfl
  have hk0 : utmK0 = 0.9996 := rfl
  refine ⟨?_, ?_, ?_, ?_⟩
  · rw [heast]; linarith [hProd.1]
  · rw [heast]; linarith [hProd.2]
  · rw [hnorth, hk0]; linarith [hM.1, hNTS.1]
  · rw [hnorth, hk0]; linarith [hM.2, hNTS.2]

theorem muscat_trig_phi :
    (0.4001119 ≤ Real.sin (deg2rad 23.588) ∧ Real.sin (deg2rad 23.588) ≤ 0.4001825) ∧
      (0.9162813 ≤ Real.cos (deg2rad 23.588) ∧ Real.cos (deg2rad 23.588) ≤ 0.9164654) := by
  have hpl := Real.pi_gt_d6
  have hph := Real.pi_lt_d6
  have hx : 0.102922044 ≤ deg2rad 23.588 / 4 ∧ deg2rad 23.588 / 4 ≤ 0.102922078 := by
    unfold deg2rad; constructor <;> nlinarith
  have hs1 := sin_mem (by norm_num) hx.1 hx.2 (by norm_num)
  have hc1 := cos_mem (by norm_num) hx.1 hx.2 (by norm_num)
  have hs1b : 0.1027344 ≤ Real.sin (deg2rad 23.588 / 4) ∧
      Real.sin (deg2rad 23.588 / 4) ≤ 0.1027463 :=
    ⟨le_trans (by norm_num) hs1.1, le_trans hs1.2 (by norm_num)⟩
  have hc1b : 0.9946976 ≤ Real.cos (deg2rad 23.588 / 4) ∧
      Real.cos (deg2rad 23.588 / 4) ≤ 0.9947094 :=
    ⟨le_trans (by norm_num) hc1.1, le_trans hc1.2 (by norm_num)⟩
  have hs2 := sin_double_mem hs1b.1 hs1b.2 hc1b.1 hc1b.2 (by norm_num) (by norm_num)
  have hc2 := cos_double_mem hc1b.1 hc1b.2 (by norm_num)
  have hs2b : 0.2043793 ≤ Real.sin (2 * (deg2rad 23.588 / 4)) ∧
      Real.sin (2 * (deg2rad 23.588 / 4)) ≤ 0.2044055 :=
    ⟨le_trans (by norm_num) hs2.1, le_trans hs2.2 (by norm_num)⟩
  have hc2b : 0.9788466 ≤ Real.cos (2 * (deg2rad 23.588 / 4)) ∧
      Real.cos (2 * (deg2rad 23.588 / 4)) ≤ 0.9788936 :=
    ⟨le_trans (by norm_num) hc2.1, le_trans hc2.2 (by norm_num)⟩
  have hs4 := sin_double_mem hs2b.1 hs2b.2 hc2b.1 hc2b.2 (by norm_num) (by norm_num)
  have hc4 := cos_double_mem hc2b.1 hc2b.2 (by norm_num)
  have hang : 2 * (2 * (deg2rad 23.588 / 4)) = deg2rad 23.588 := by ring
  rw [hang] at hs4 hc4
  exact ⟨⟨le_trans (by norm_num) hs4.1, le_trans hs4.2 (by norm_num)⟩,
    ⟨le_trans (by norm_num) hc4.1, le_trans hc4.2 (by norm_num)⟩⟩

theorem muscat_trig_lam :
    (0.8509986 ≤ Real.sin (deg2rad 58.3829) ∧ Real.sin (deg2rad 58.3829) ≤ 0.8517161) ∧
      (0.5229159 ≤ Real.cos (deg2rad 58.3829) ∧ Real.cos (deg2rad 58.3829) ≤ 0.5243921) := by
  have hpl := Real.pi_gt_d6
  have hph := Real.pi_lt_d6
  have hx : 0.127371702 ≤ deg2rad 58.3829 / 8 ∧ deg2rad 58.3829 / 8 ≤ 0.127371744 := by
    unfold deg2rad; constructor <;> nlinarith
  have hs1 := sin_mem (by norm_num) hx.1 hx.2 (by norm_num)
  have hc1 := cos_mem (by norm_num) hx.1 hx.2 (by norm_num)
  have hs1b : 0.1270135 ≤ Real.sin (deg2rad 58.3829 / 8) ∧
      Real.sin (deg2rad 58.3829 / 8) ≤ 0.1270411 :=
    ⟨le_trans (by norm_num) hs1.1, le_trans hs1.2 (by norm_num)⟩
  have hc1b : 0.9918745 ≤ Real.cos (deg2rad 58.3829 / 8) ∧
      Real.cos (deg2rad 58.3829 / 8) ≤ 0.991902 :=
    ⟨le_trans (by norm_num) hc1.1, le_trans hc1.2 (by norm_num)⟩
  have hs2 := sin_double_mem hs1b.1 hs1b.2 hc1b.1 hc1b.2 (by norm_num) (by norm_num)
  have hc2 := cos_double_mem hc1b.1 hc1b.2 (by norm_num)
  have hs2b : 0.2519629 ≤ Real.sin (2 * (deg2rad 58.3829 / 8)) ∧
      Real.sin (2 * (deg2rad 58.3829 / 8)) ≤ 0.2520247 :=
    ⟨le_trans (by norm_num) hs2.1, le_trans hs2.2 (by norm_num)⟩
  have hc2b : 0.96763 ≤ Real.cos (2 * (deg2rad 58.3829 / 8)) ∧
      Real.cos (2 * (deg2rad 58.3829 / 8)) ≤ 0.9677392 :=
    ⟨le_trans (by norm_num) hc2.1, le_trans hc2.2 (by norm_num)⟩
  have hs4 := sin_double_mem hs2b.1 hs2b.2 hc2b.1 hc2b.2 (by norm_num) (by norm_num)
  have hc4 := cos_double_mem hc2b.1 hc2b.2 (by norm_num)
  have hs4b : 0.4876137 ≤ Real.sin (2 * (2 * (deg2rad 58.3829 / 8))) ∧
      Real.sin (2 * (2 * (deg2rad 58.3829 / 8))) ≤ 0.4877884 :=
    ⟨le_trans (by norm_num) hs4.1, le_trans hs4.2 (by norm_num)⟩
  have hc4b : 0.8726156 ≤ Real.cos (2 * (2 * (deg2rad 58.3829 / 8))) ∧
      Real.cos (2 * (2 * (deg2rad 58.3829 / 8))) ≤ 0.8730384 :=
    ⟨le_trans (by norm_num) hc4.1, le_trans hc4.2 (by norm_num)⟩
  have hs8 := sin_double_mem hs4b.1 hs4b.2 hc4b.1 hc4b.2 (by norm_num) (by norm_num)
  have hc8 := cos_double_mem hc4b.1 hc4b.2 (by norm_num)
  have hang : 2 * (2 * (2 * (deg2rad 58.3829 / 8))) = deg2rad 58.3829 := by ring
  rw [hang] at hs8 hc8
  exact ⟨⟨le_trans (by norm_num) hs8.1, le_trans hs8.2 (by norm_num)⟩,
    ⟨le_trans (by norm_num) hc8.1, le_trans hc8.2 (by norm_num)⟩⟩

theorem muscat_ecef :
    (3057646.7 ≤ (wgs84ECEF 23.588 58.3829 0).1 ∧
        (wgs84ECEF 23.588 58.3829 0).1 ≤ 3066895.7) ∧
      (4976045 ≤ (wgs84ECEF 23.588 58.3829 0).2.1 ∧
        (wgs84ECEF 23.588 58.3829 0).2.1 ≤ 4981242.8) ∧
      (2536243.7 ≤ (wgs84ECEF 23.588 58.3829 0).2.2 ∧
        (wgs84ECEF 23.588 58.3829 0).2.2 ≤ 2536692.2) := by
  obtain ⟨hsphi, hcphi⟩ := muscat_trig_phi
  obtain ⟨hslam, hclam⟩ := muscat_trig_lam
  have he2 : (0.00669437999 : ℝ) ≤
      2 * (1 / 298.257223563) - 1 / 298.257223563 * (1 / 298.257223563) ∧
      (2 * (1 / 298.257223563) - 1 / 298.257223563 * (1 / 298.257223563) : ℝ) ≤
        0.006694379991 := by
    constructor <;> norm_num
  have he2s : 0.002678501 ≤
      (2 * (1 / 298.257223563) - 1 / 298.257223563 * (1 / 298.257223563)) *
        Real.sin (deg2rad 23.588) ∧
      (2 * (1 / 298.257223563) - 1 / 298.257223563 * (1 / 298.257223563)) *
        Real.sin (deg2rad 23.588) ≤ 0.002678974 := by
    have hm := mul_mem_pp he2.1 he2.2 hsphi.1 hsphi.2 (by norm_num) (by norm_num)
    exact ⟨le_trans (by norm_num) hm.1, le_trans hm.2 (by norm_num)⟩
  have he2ss : 0.0010717 ≤
      (2 * (1 / 298.257223563) - 1 / 298.257223563 * (1 / 298.257223563)) *
        Real.sin (deg2rad 23.588) * Real.sin (deg2rad 23.588) ∧
      (2 * (1 / 298.257223563) - 1 / 298.257223563 * (1 / 298.257223563)) *
        Real.sin (deg2rad 23.588) * Real.sin (deg2rad 23.588) ≤ 0.001072079 := by
    have hm := mul_mem_pp he2s.1 he2s.2 hsphi.1 hsphi.2 (by norm_num) (by norm_num)
    exact ⟨le_trans (by norm_num) hm.1, le_trans hm.2 (by norm_num)⟩
  have hv : 0.998927921 ≤ 1 -
      (2 * (1 / 298.257223563) - 1 / 298.257223563 * (1 / 298.257223563)) *
        Real.sin (deg2rad 23.588) * Real.sin (deg2rad 23.588) ∧
      1 - (2 * (1 / 298.257223563) - 1 / 298.257223563 * (1 / 298.257223563)) *
        Real.sin (deg2rad 23.588) * Real.sin (deg2rad 23.588) ≤ 0.9989283 :=
    ⟨by linarith [he2ss.2], by linarith [he2ss.1]⟩
  have hsq := sqrt_mem hv.1 hv.2 (by norm_num : (0 : ℝ) ≤ 0.9994638) (by norm_num)
    (by norm_num : (0 : ℝ) ≤ 0.9994641) (by norm_num)
  have hNW : 6381556.8 ≤ 6378137.0 / Real.sqrt (1 -
      (2 * (1 / 298.257223563) - 1 / 298.257223563 * (1 / 298.257223563)) *
        Real.sin (deg2rad 23.588) * Real.sin (deg2rad 23.588)) ∧
      6378137.0 / Real.sqrt (1 -
      (2 * (1 / 298.257223563) - 1 / 298.257223563 * (1 / 298.257223563)) *
        Real.sin (deg2rad 23.588) * Real.sin (deg2rad 23.588)) ≤ 6381558.8 := by
    have hd := div_mem_pp (le_refl (6378137.0 : ℝ)) (le_refl (6378137.0 : ℝ))
      hsq.1 hsq.2 (by norm_num) (by norm_num)
    exact ⟨le_trans (by norm_num) hd.1, le_trans hd.2 (by norm_num)⟩
  have hNc : 5847301.1 ≤ (6378137.0 / Real.sqrt (1 -
      (2 * (1 / 298.257223563) - 1 / 298.257223563 * (1 / 298.257223563)) *
        Real.sin (deg2rad 23.588) * Real.sin (deg2rad 23.588)) + 0) *
        Real.cos (deg2rad 23.588) ∧
      (6378137.0 / Real.sqrt (1 -
      (2 * (1 / 298.257223563) - 1 / 298.257223563 * (1 / 298.257223563)) *
        Real.sin (deg2rad 23.588) * Real.sin (deg2rad 23.588)) + 0) *
        Real.cos (deg2rad 23.588) ≤ 5848477.9 := by
    have hn0 : (6381556.8 : ℝ) ≤ 6378137.0 / Real.sqrt (1 -
        (2 * (1 / 298.257223563) - 1 / 298.257223563 * (1 / 298.257223563)) *
          Real.sin (deg2rad 23.588) * Real.sin (deg2rad 23.588)) + 0 := by
      linarith [hNW.1]
    have hn1 : 6378137.0 / Real.sqrt (1 -
        (2 * (1 / 298.257223563) - 1 / 298.257223563 * (1 / 298.257223563)) *
          Real.sin (deg2rad 23.588) * Real.sin (deg2rad 23.588)) + 0 ≤
        (6381558.8 : ℝ) := by
      linarith [hNW.2]
    have hm := mul_mem_pp hn0 hn1 hcphi.1 hcphi.2 (by norm_num) (by norm_num)
    exact ⟨le_trans (by norm_num) hm.1, le_trans hm.2 (by norm_num)⟩
  refine ⟨?_, ?_, ?_⟩
  · have hm := mul_mem_pp hNc.1 hNc.2 hclam.1 hclam.2 (by norm_num) (by norm_num)
    exact ⟨le_trans (by norm_num) hm.1, le_trans hm.2 (by norm_num)⟩
  · have hm := mul_mem_pp hNc.1 hNc.2 hslam.1 hslam.2 (by norm_num) (by norm_num)
    exact ⟨le_trans (by norm_num) hm.1, le_trans hm.2 (by norm_num)⟩
  · have hNm : 6338836.2 ≤ 6378137.0 / Real.sqrt (1 -
        (2 * (1 / 298.257223563) - 1 / 298.257223563 * (1 / 298.257223563)) *
          Real.sin (deg2rad 23.588) * Real.sin (deg2rad 23.588)) *
        (1 - (2 * (1 / 298.257223563) -
          1 / 298.257223563 * (1 / 298.257223563))) ∧
        6378137.0 / Real.sqrt (1 -
        (2 * (1 / 298.257223563) - 1 / 298.257223563 * (1 / 298.257223563)) *
          Real.sin (deg2rad 23.588) * Real.sin (deg2rad 23.588)) *
        (1 - (2 * (1 / 298.257223563) -
          1 / 298.257223563 * (1 / 298.257223563))) ≤ 6338838.3 := by
      have hf1 : (0.993305620009 : ℝ) ≤ 1 - (2 * (1 / 298.257223563) -
          1 / 298.257223563 * (1 / 298.257223563)) := by norm_num
      have hf2 : (1 - (2 * (1 / 298.257223563) -
          1 / 298.257223563 * (1 / 298.257223563)) : ℝ) ≤ 0.99330562001 := by
        norm_num
      have hm := mul_mem_pp hNW.1 hNW.2 hf1 hf2 (by norm_num) (by norm_num)
      exact ⟨le_trans (by norm_num) hm.1, le_trans hm.2 (by norm_num)⟩
    have hn0 : (6338836.2 : ℝ) ≤
        6378137.0 / Real.sqrt (1 -
        (2 * (1 / 298.257223563) - 1 / 298.257223563 * (1 / 298.257223563)) *
          Real.sin (deg2rad 23.588) * Real.sin (deg2rad 23.588)) *
        (1 - (2 * (1 / 298.257223563) -
          1 / 298.257223563 * (1 / 298.257223563))) + 0 := by
      linarith [hNm.1]
    have hn1 : 6378137.0 / Real.sqrt (1 -
        (2 * (1 / 298.257223563) - 1 / 298.257223563 * (1 / 298.257223563)) *
          Real.sin (deg2rad 23.588) * Real.sin (deg2rad 23.588)) *
        (1 - (2 * (1 / 298.257223563) -
          1 / 298.257223563 * (1 / 298.257223563))) + 0 ≤ (6338838.3 : ℝ) := by
      linarith [hNm.2]
    have hm := mul_mem_pp hn0 hn1 hsphi.1 hsphi.2 (by norm_num) (by norm_num)
    exact ⟨le_trans (by norm_num) hm.1, le_trans hm.2 (by norm_num)⟩

set_option maxHeartbeats 2000000 in
theorem muscat_cart :
    (3057292.2 ≤ (wgs84Cartesian 23.588 58.3829 0).1 ∧
        (wgs84Cartesian 23.588 58.3829 0).1 ≤ 3066542) ∧
      (4976035.9 ≤ (wgs84Cartesian 23.588 58.3829 0).2.1 ∧
        (wgs84Cartesian 23.588 58.3829 0).2.1 ≤ 4981234.6) ∧
      (2536468.4 ≤ (wgs84Cartesian 23.588 58.3829 0).2.2 ∧
        (wgs84Cartesian 23.588 58.3829 0).2.2 ≤ 2536917.4) := by
  obtain ⟨hXs, hYs, hZs⟩ := muscat_ecef
  have hpl := Real.pi_gt_d6
  have hph := Real.pi_lt_d6
  have hrz1 : 0.0000404140 ≤ arcsec2rad 8.336 := by unfold arcsec2rad; nlinarith
  have hrz2 : arcsec2rad 8.336 ≤ 0.0000404141 := by unfold arcsec2rad; nlinarith
  have hry1 : -0.0000092018 ≤ arcsec2rad (-1.898) := by unfold arcsec2rad; nlinarith
  have hry2 : arcsec2rad (-1.898) ≤ -0.0000092017 := by unfold arcsec2rad; nlinarith
  have hrx1 : -0.0000039270 ≤ arcsec2rad (-0.81) := by unfold arcsec2rad; nlinarith
  have hrx2 : arcsec2rad (-0.81) ≤ -0.0000039269 := by unfold arcsec2rad; nlinarith
  have hsl : (0.0000167100 : ℝ) ≤ 16.71006 * 1e-6 := by norm_num
  have hsh : (16.71006 : ℝ) * 1e-6 ≤ 0.0000167101 := by norm_num
  have hsXs := mul_mem_pp hsl hsh hXs.1 hXs.2 (by norm_num) (by norm_num)
  have hrzYs := mul_mem_pp hrz1 hrz2 hYs.1 hYs.2 (by norm_num) (by norm_num)
  have hryZs := mul_mem_np hry1 hry2 hZs.1 hZs.2 (by linarith) (by norm_num)
  have hrzXs := mul_mem_pp hrz1 hrz2 hXs.1 hXs.2 (by norm_num) (by norm_num)
  have hsYs := mul_mem_pp hsl hsh hYs.1 hYs.2 (by norm_num) (by norm_num)
  have hrxZs := mul_mem_np hrx1 hrx2 hZs.1 hZs.2 (by linarith) (by norm_num)
  have hryXs := mul_mem_np hry1 hry2 hXs.1 hXs.2 (by linarith) (by norm_num)
  have hrxYs := mul_mem_np hrx1 hrx2 hYs.1 hYs.2 (by linarith) (by norm_num)
  have hsZs := mul_mem_pp hsl hsh hZs.1 hZs.2 (by norm_num) (by norm_num)
  have hX_eq : (wgs84Cartesian 23.588 58.3829 0).1 =
      (wgs84ECEF 23.588 58.3829 0).1 + -180.624 +
        16.71006 * 1e-6 * (wgs84ECEF 23.588 58.3829 0).1 -
        arcsec2rad 8.336 * (wgs84ECEF 23.588 58.3829 0).2.1 +
        arcsec2rad (-1.898) * (wgs84ECEF 23.588 58.3829 0).2.2 := rfl
  have hY_eq : (wgs84Cartesian 23.588 58.3829 0).2.1 =
      (wgs84ECEF 23.588 58.3829 0).2.1 + -225.516 +
        arcsec2rad 8.336 * (wgs84ECEF 23.588 58.3829 0).1 +
        16.71006 * 1e-6 * (wgs84ECEF 23.588 58.3829 0).2.1 -
        arcsec2rad (-0.81) * (wgs84ECEF 23.588 58.3829 0).2.2 := rfl
  have hZ_eq : (wgs84Cartesian 23.588 58.3829 0).2.2 =
      (wgs84ECEF 23.588 58.3829 0).2.2 + 173.919 -
        arcsec2rad (-1.898) * (wgs84ECEF 23.588 58.3829 0).1 +
        arcsec2rad (-0.81) * (wgs84ECEF 23.588 58.3829 0).2.1 +
        16.71006 * 1e-6 * (wgs84ECEF 23.588 58.3829 0).2.2 := rfl
  refine ⟨?_, ?_, ?_⟩
  · rw [hX_eq]
    constructor <;> linarith [hXs.1, hXs.2, hsXs.1, hsXs.2, hrzYs.1, hrzYs.2,
      hryZs.1, hryZs.2]
  · rw [hY_eq]
    constructor <;> linarith [hYs.1, hYs.2, hrzXs.1, hrzXs.2, hsYs.1, hsYs.2,
      hrxZs.1, hrxZs.2]
  · rw [hZ_eq]
    constructor <;> linarith [hZs.1, hZs.2, hryXs.1, hryXs.2, hrxYs.1, hrxYs.2,
      hsZs.1, hsZs.2]

theorem muscat_tan_lo_lat : Real.tan 0.41 ≤ 0.43474 := by
  have hs1 := sin_mem (by norm_num : (0 : ℝ) ≤ 0.1025) (le_refl (0.1025 : ℝ))
    (le_refl (0.1025 : ℝ)) (by norm_num)
  have hc1 := cos_mem (by norm_num : (0 : ℝ) ≤ 0.1025) (le_refl (0.1025 : ℝ))
    (le_refl (0.1025 : ℝ)) (by norm_num)
  have hs1b : 0.1023147 ≤ Real.sin 0.1025 ∧ Real.sin 0.1025 ≤ 0.1023263 :=
    ⟨le_trans (by norm_num) hs1.1, le_trans hs1.2 (by norm_num)⟩
  have hc1b : 0.9947411 ≤ Real.cos 0.1025 ∧ Real.cos 0.1025 ≤ 0.9947527 :=
    ⟨le_trans (by norm_num) hc1.1, le_trans hc1.2 (by norm_num)⟩
  have hs2 := sin_double_mem hs1b.1 hs1b.2 hc1b.1 hc1b.2 (by norm_num) (by norm_num)
  have hc2 := cos_double_mem hc1b.1 hc1b.2 (by norm_num)
  have hs2b : 0.2035532 ≤ Real.sin (2 * 0.1025) ∧ Real.sin (2 * 0.1025) ≤ 0.2035788 :=
    ⟨le_trans (by norm_num) hs2.1, le_trans hs2.2 (by norm_num)⟩
  have hc2b : 0.9790197 ≤ Real.cos (2 * 0.1025) ∧ Real.cos (2 * 0.1025) ≤ 0.9790659 :=
    ⟨le_trans (by norm_num) hc2.1, le_trans hc2.2 (by norm_num)⟩
  have hs4 := sin_double_mem hs2b.1 hs2b.2 hc2b.1 hc2b.2 (by norm_num) (by norm_num)
  have hc4 := cos_double_mem hc2b.1 hc2b.2 (by norm_num)
  have hang : 2 * (2 * (0.1025 : ℝ)) = 0.41 := by norm_num
  rw [hang] at hs4 hc4
  have ht := tan_le_of_bounds (le_trans hs4.2 (by norm_num : (2 : ℝ) * 0.2035788 *
      0.9790659 ≤ 0.3986342)) (le_trans (by norm_num : (0.9169591 : ℝ) ≤
      2 * 0.9790197 ^ 2 - 1) hc4.1) (by norm_num) (by norm_num)
  exact le_trans ht (by norm_num)

theorem muscat_tan_hi_lat : 0.43933 ≤ Real.tan 0.414 := by
  have hs1 := sin_mem (by norm_num : (0 : ℝ) ≤ 0.1035) (le_refl (0.1035 : ℝ))
    (le_refl (0.1035 : ℝ)) (by norm_num)
  have hc1 := cos_mem (by norm_num : (0 : ℝ) ≤ 0.1035) (le_refl (0.1035 : ℝ))
    (le_refl (0.1035 : ℝ)) (by norm_num)
  have hs1b : 0.1033092 ≤ Real.sin 0.1035 ∧ Real.sin 0.1035 ≤ 0.1033212 :=
    ⟨le_trans (by norm_num) hs1.1, le_trans hs1.2 (by norm_num)⟩
  have hc1b : 0.9946378 ≤ Real.cos 0.1035 ∧ Real.cos 0.1035 ≤ 0.9946499 :=
    ⟨le_trans (by norm_num) hc1.1, le_trans hc1.2 (by norm_num)⟩
  have hs2 := sin_double_mem hs1b.1 hs1b.2 hc1b.1 hc1b.2 (by norm_num) (by norm_num)
  have hc2 := cos_double_mem hc1b.1 hc1b.2 (by norm_num)
  have hs2b : 0.2055104 ≤ Real.sin (2 * 0.1035) ∧ Real.sin (2 * 0.1035) ≤ 0.2055369 :=
    ⟨le_trans (by norm_num) hs2.1, le_trans hs2.2 (by norm_num)⟩
  have hc2b : 0.9786087 ≤ Real.cos (2 * 0.1035) ∧ Real.cos (2 * 0.1035) ≤ 0.9786569 :=
    ⟨le_trans (by norm_num) hc2.1, le_trans hc2.2 (by norm_num)⟩
  have hs4 := sin_double_mem hs2b.1 hs2b.2 hc2b.1 hc2b.2 (by norm_num) (by norm_num)
  have hc4 := cos_double_mem hc2b.1 hc2b.2 (by norm_num)
  have hang : 2 * (2 * (0.1035 : ℝ)) = 0.414 := by norm_num
  rw [hang] at hs4 hc4
  have hcpos : (0 : ℝ) < Real.cos 0.414 := by nlinarith [hc4.1]
  have ht := le_tan_of_bounds (le_trans (by norm_num : (0.4022285 : ℝ) ≤
      2 * 0.2055104 * 0.9786087) hs4.1) (le_trans hc4.2
      (by norm_num : (2 : ℝ) * 0.9786569 ^ 2 - 1 ≤ 0.9155387)) (by norm_num) hcpos
  exact le_trans (by norm_num) ht

theorem muscat_tan_lo_lon : Real.tan 1.016 ≤ 1.61793 := by
  have hs1 := sin_mem (by norm_num : (0 : ℝ) ≤ 0.127) (le_refl (0.127 : ℝ))
    (le_refl (0.127 : ℝ)) (by norm_num)
  have hc1 := cos_mem (by norm_num : (0 : ℝ) ≤ 0.127) (le_refl (0.127 : ℝ))
    (le_refl (0.127 : ℝ)) (by norm_num)
  have hs1b : 0.126645 ≤ Real.sin 0.127 ∧ Real.sin 0.127 ≤ 0.1266722 :=
    ⟨le_trans (by norm_num) hs1.1, le_trans hs1.2 (by norm_num)⟩
  have hc1b : 0.9919219 ≤ Real.cos 0.127 ∧ Real.cos 0.127 ≤ 0.9919491 :=
    ⟨le_trans (by norm_num) hc1.1, le_trans hc1.2 (by norm_num)⟩
  have hs2 := sin_double_mem hs1b.1 hs1b.2 hc1b.1 hc1b.2 (by norm_num) (by norm_num)
  have hc2 := cos_double_mem hc1b.1 hc1b.2 (by norm_num)
  have hs2b : 0.2512438 ≤ Real.sin (2 * 0.127) ∧ Real.sin (2 * 0.127) ≤ 0.2513048 :=
    ⟨le_trans (by norm_num) hs2.1, le_trans hs2.2 (by norm_num)⟩
  have hc2b : 0.9678181 ≤ Real.cos (2 * 0.127) ∧ Real.cos (2 * 0.127) ≤ 0.9679261 :=
    ⟨le_trans (by norm_num) hc2.1, le_trans hc2.2 (by norm_num)⟩
  have hs4 := sin_double_mem hs2b.1 hs2b.2 hc2b.1 hc2b.2 (by norm_num) (by norm_num)
  have hc4 := cos_double_mem hc2b.1 hc2b.2 (by norm_num)
  have hs4b : 0.4863165 ≤ Real.sin (2 * (2 * 0.127)) ∧
      Real.sin (2 * (2 * 0.127)) ≤ 0.486489 :=
    ⟨le_trans (by norm_num) hs4.1, le_trans hs4.2 (by norm_num)⟩
  have hc4b : 0.8733437 ≤ Real.cos (2 * (2 * 0.127)) ∧
      Real.cos (2 * (2 * 0.127)) ≤ 0.8737619 :=
    ⟨le_trans (by norm_num) hc4.1, le_trans hc4.2 (by norm_num)⟩
  have hs8 := sin_double_mem hs4b.1 hs4b.2 hc4b.1 hc4b.2 (by norm_num) (by norm_num)
  have hc8 := cos_double_mem hc4b.1 hc4b.2 (by norm_num)
  have hang : 2 * (2 * (2 * (0.127 : ℝ))) = 1.016 := by norm_num
  rw [hang] at hs8 hc8
  have ht := tan_le_of_bounds (le_trans hs8.2 (by norm_num : (2 : ℝ) * 0.486489 *
      0.8737619 ≤ 0.8501512)) (le_trans (by norm_num : (0.5254584 : ℝ) ≤
      2 * 0.8733437 ^ 2 - 1) hc8.1) (by norm_num) (by norm_num)
  exact le_trans ht (by norm_num)

theorem muscat_tan_hi_lon : 1.6357 ≤ Real.tan 1.0225 := by
  have hs1 := sin_mem (by norm_num : (0 : ℝ) ≤ 0.1278125) (le_refl (0.1278125 : ℝ))
    (le_refl (0.1278125 : ℝ)) (by norm_num)
  have hc1 := cos_mem (by norm_num : (0 : ℝ) ≤ 0.1278125) (le_refl (0.1278125 : ℝ))
    (le_refl (0.1278125 : ℝ)) (by norm_num)
  have hs1b : 0.1274506 ≤ Real.sin 0.1278125 ∧ Real.sin 0.1278125 ≤ 0.1274785 :=
    ⟨le_trans (by norm_num) hs1.1, le_trans hs1.2 (by norm_num)⟩
  have hc1b : 0.991818 ≤ Real.cos 0.1278125 ∧ Real.cos 0.1278125 ≤ 0.9918459 :=
    ⟨le_trans (by norm_num) hc1.1, le_trans hc1.2 (by norm_num)⟩
  have hs2 := sin_double_mem hs1b.1 hs1b.2 hc1b.1 hc1b.2 (by norm_num) (by norm_num)
  have hc2 := cos_double_mem hc1b.1 hc1b.2 (by norm_num)
  have hs2b : 0.2528155 ≤ Real.sin (2 * 0.1278125) ∧
      Real.sin (2 * 0.1278125) ≤ 0.2528781 :=
    ⟨le_trans (by norm_num) hs2.1, le_trans hs2.2 (by norm_num)⟩
  have hc2b : 0.9674058 ≤ Real.cos (2 * 0.1278125) ∧
      Real.cos (2 * 0.1278125) ≤ 0.9675166 :=
    ⟨le_trans (by norm_num) hc2.1, le_trans hc2.2 (by norm_num)⟩
  have hs4 := sin_double_mem hs2b.1 hs2b.2 hc2b.1 hc2b.2 (by norm_num) (by norm_num)
  have hc4 := cos_double_mem hc2b.1 hc2b.2 (by norm_num)
  have hs4b : 0.4891503 ≤ Real.sin (2 * (2 * 0.1278125)) ∧
      Real.sin (2 * (2 * 0.1278125)) ≤ 0.4893276 :=
    ⟨le_trans (by norm_num) hs4.1, le_trans hs4.2 (by norm_num)⟩
  have hc4b : 0.8717479 ≤ Real.cos (2 * (2 * 0.1278125)) ∧
      Real.cos (2 * (2 * 0.1278125)) ≤ 0.8721768 :=
    ⟨le_trans (by norm_num) hc4.1, le_trans hc4.2 (by norm_num)⟩
  have hs8 := sin_double_mem hs4b.1 hs4b.2 hc4b.1 hc4b.2 (by norm_num) (by norm_num)
  have hc8 := cos_double_mem hc4b.1 hc4b.2 (by norm_num)
  have hang : 2 * (2 * (2 * (0.1278125 : ℝ))) = 1.0225 := by norm_num
  rw [hang] at hs8 hc8
  have hcpos : (0 : ℝ) < Real.cos 1.0225 := by nlinarith [hc8.1]
  have ht := le_tan_of_bounds (le_trans (by norm_num : (0.8528314 : ℝ) ≤
      2 * 0.4891503 * 0.8717479) hs8.1) (le_trans hc8.2
      (by norm_num : (2 : ℝ) * 0.8721768 ^ 2 - 1 ≤ 0.5213848)) (by norm_num) hcpos
  exact le_trans (by norm_num) ht

set_option maxHeartbeats 2000000 in
theorem muscat_p :
    5840202.8 ≤ ecefP (wgs84Cartesian 23.588 58.3829 0).1
        (wgs84Cartesian 23.588 58.3829 0).2.1 ∧
      ecefP (wgs84Cartesian 23.588 58.3829 0).1
        (wgs84Cartesian 23.588 58.3829 0).2.1 ≤ 5849476.8 := by
  obtain ⟨hXt, hYt, hZt⟩ := muscat_cart
  have hXX := mul_mem_pp hXt.1 hXt.2 hXt.1 hXt.2 (by norm_num) (by norm_num)
  have hYY := mul_mem_pp hYt.1 hYt.2 hYt.1 hYt.2 (by norm_num) (by norm_num)
  have hsum1 : (34107968874100 : ℝ) ≤
      (wgs84Cartesian 23.588 58.3829 0).1 * (wgs84Cartesian 23.588 58.3829 0).1 +
        (wgs84Cartesian 23.588 58.3829 0).2.1 *
          (wgs84Cartesian 23.588 58.3829 0).2.1 := by
    have e1 : (9347035596100 : ℝ) ≤ 3057292.2 * 3057292.2 := by norm_num
    have e2 : (24760933278000 : ℝ) ≤ 4976035.9 * 4976035.9 := by norm_num
    linarith [hXX.1, hYY.1]
  have hsum2 :
      (wgs84Cartesian 23.588 58.3829 0).1 * (wgs84Cartesian 23.588 58.3829 0).1 +
        (wgs84Cartesian 23.588 58.3829 0).2.1 *
          (wgs84Cartesian 23.588 58.3829 0).2.1 ≤ (34216377978100 : ℝ) := by
    have e1 : (3066542 : ℝ) * 3066542 ≤ 9403679837800 := by norm_num
    have e2 : (4981234.6 : ℝ) * 4981234.6 ≤ 24812698140300 := by norm_num
    linarith [hXX.2, hYY.2]
  have hs := sqrt_mem hsum1 hsum2 (by norm_num : (0 : ℝ) ≤ 5840202.8) (by norm_num)
    (by norm_num : (0 : ℝ) ≤ 5849476.8) (by norm_num)
  exact ⟨hs.1, hs.2⟩

set_option maxHeartbeats 2000000 in
theorem muscat_theta :
    (0.398863 ≤ Real.sin (bowringTheta (wgs84Cartesian 23.588 58.3829 0).1
        (wgs84Cartesian 23.588 58.3829 0).2.1 (wgs84Cartesian 23.588 58.3829 0).2.2
        6378249.145 (1 / 293.465)) ∧
      Real.sin (bowringTheta (wgs84Cartesian 23.588 58.3829 0).1
        (wgs84Cartesian 23.588 58.3829 0).2.1 (wgs84Cartesian 23.588 58.3829 0).2.2
        6378249.145 (1 / 293.465)) ≤ 0.3996798) ∧
    (0.9167038 ≤ Real.cos (bowringTheta (wgs84Cartesian 23.588 58.3829 0).1
        (wgs84Cartesian 23.588 58.3829 0).2.1 (wgs84Cartesian 23.588 58.3829 0).2.2
        6378249.145 (1 / 293.465)) ∧
      Real.cos (bowringTheta (wgs84Cartesian 23.588 58.3829 0).1
        (wgs84Cartesian 23.588 58.3829 0).2.1 (wgs84Cartesian 23.588 58.3829 0).2.2
        6378249.145 (1 / 293.465)) ≤ 0.9169618) := by
  obtain ⟨hXt, hYt, hZt⟩ := muscat_cart
  have hp := muscat_p
  have hqn := mul_mem_pp hZt.1 hZt.2 (le_refl (6378249.145 : ℝ))
    (le_refl (6378249.145 : ℝ)) (by norm_num) (by norm_num)
  have hqnb : (16178227403600 : ℝ) ≤
      (wgs84Cartesian 23.588 58.3829 0).2.2 * 6378249.145 ∧
      (wgs84Cartesian 23.588 58.3829 0).2.2 * 6378249.145 ≤ 16181091237500 :=
    ⟨le_trans (by norm_num) hqn.1, le_trans hqn.2 (by norm_num)⟩
  have hf1 : (0.9965924 : ℝ) ≤ 1 - 1 / 293.465 := by norm_num
  have hf2 : (1 - 1 / 293.465 : ℝ) ≤ 0.9965925 := by norm_num
  have hpd1 := mul_mem_pp hp.1 hp.2 hf1 hf2 (by norm_num) (by norm_num)
  have hpd1b : (5820301.7 : ℝ) ≤ ecefP (wgs84Cartesian 23.588 58.3829 0).1
      (wgs84Cartesian 23.588 58.3829 0).2.1 * (1 - 1 / 293.465) ∧
      ecefP (wgs84Cartesian 23.588 58.3829 0).1
      (wgs84Cartesian 23.588 58.3829 0).2.1 * (1 - 1 / 293.465) ≤ 5829544.8 :=
    ⟨le_trans (by norm_num) hpd1.1, le_trans hpd1.2 (by norm_num)⟩
  have hpd := mul_mem_pp hpd1b.1 hpd1b.2 (le_refl (6378249.145 : ℝ))
    (le_refl (6378249.145 : ℝ)) (by norm_num) (by norm_num)
  have hpdb : (37123334341600 : ℝ) ≤ ecefP (wgs84Cartesian 23.588 58.3829 0).1
      (wgs84Cartesian 23.588 58.3829 0).2.1 * (1 - 1 / 293.465) * 6378249.145 ∧
      ecefP (wgs84Cartesian 23.588 58.3829 0).1
      (wgs84Cartesian 23.588 58.3829 0).2.1 * (1 - 1 / 293.465) * 6378249.145 ≤
      37182289136400 :=
    ⟨le_trans (by norm_num) hpd.1, le_trans hpd.2 (by norm_num)⟩
  have hpd_pos : 0 < ecefP (wgs84Cartesian 23.588 58.3829 0).1
      (wgs84Cartesian 23.588 58.3829 0).2.1 * (1 - 1 / 293.465) * 6378249.145 := by
    linarith [hpdb.1]
  have hth_eq : bowringTheta (wgs84Cartesian 23.588 58.3829 0).1
      (wgs84Cartesian 23.588 58.3829 0).2.1 (wgs84Cartesian 23.588 58.3829 0).2.2
      6378249.145 (1 / 293.465) =
      Real.arctan ((wgs84Cartesian 23.588 58.3829 0).2.2 * 6378249.145 /
        (ecefP (wgs84Cartesian 23.588 58.3829 0).1
          (wgs84Cartesian 23.588 58.3829 0).2.1 * (1 - 1 / 293.465) *
          6378249.145)) := by
    unfold bowringTheta atan2
    rw [if_pos hpd_pos]
  have hq := div_mem_pp hqnb.1 hqnb.2 hpdb.1 hpdb.2 (by norm_num) (by norm_num)
  have hqb : (0.4351057 : ℝ) ≤ (wgs84Cartesian 23.588 58.3829 0).2.2 * 6378249.145 /
      (ecefP (wgs84Cartesian 23.588 58.3829 0).1
        (wgs84Cartesian 23.588 58.3829 0).2.1 * (1 - 1 / 293.465) * 6378249.145) ∧
      (wgs84Cartesian 23.588 58.3829 0).2.2 * 6378249.145 /
      (ecefP (wgs84Cartesian 23.588 58.3829 0).1
        (wgs84Cartesian 23.588 58.3829 0).2.1 * (1 - 1 / 293.465) * 6378249.145) ≤
      0.4358739 :=
    ⟨le_trans (by norm_num) hq.1, le_trans hq.2 (by norm_num)⟩
  have hq0 : (0 : ℝ) ≤ (wgs84Cartesian 23.588 58.3829 0).2.2 * 6378249.145 /
      (ecefP (wgs84Cartesian 23.588 58.3829 0).1
        (wgs84Cartesian 23.588 58.3829 0).2.1 * (1 - 1 / 293.465) * 6378249.145) :=
    le_trans (by norm_num) hqb.1
  have hq2 : (0.1893169 : ℝ) ≤ ((wgs84Cartesian 23.588 58.3829 0).2.2 * 6378249.145 /
      (ecefP (wgs84Cartesian 23.588 58.3829 0).1
        (wgs84Cartesian 23.588 58.3829 0).2.1 * (1 - 1 / 293.465) *
        6378249.145)) ^ 2 ∧
      ((wgs84Cartesian 23.588 58.3829 0).2.2 * 6378249.145 /
      (ecefP (wgs84Cartesian 23.588 58.3829 0).1
        (wgs84Cartesian 23.588 58.3829 0).2.1 * (1 - 1 / 293.465) *
        6378249.145)) ^ 2 ≤ 0.1899861 :=
    ⟨le_trans (by norm_num) (pow_le_pow_left₀ (by norm_num) hqb.1 2),
     le_trans (pow_le_pow_left₀ hq0 hqb.2 2) (by norm_num)⟩
  have h1q2a : (1.1893169 : ℝ) ≤ 1 + ((wgs84Cartesian 23.588 58.3829 0).2.2 *
      6378249.145 / (ecefP (wgs84Cartesian 23.588 58.3829 0).1
        (wgs84Cartesian 23.588 58.3829 0).2.1 * (1 - 1 / 293.465) *
        6378249.145)) ^ 2 := by linarith [hq2.1]
  have h1q2b : 1 + ((wgs84Cartesian 23.588 58.3829 0).2.2 * 6378249.145 /
      (ecefP (wgs84Cartesian 23.588 58.3829 0).1
        (wgs84Cartesian 23.588 58.3829 0).2.1 * (1 - 1 / 293.465) *
        6378249.145)) ^ 2 ≤ (1.1899861 : ℝ) := by linarith [hq2.2]
  have hsq := sqrt_mem h1q2a h1q2b (by norm_num : (0 : ℝ) ≤ 1.090558) (by norm_num)
    (by norm_num : (0 : ℝ) ≤ 1.0908649) (by norm_num)
  constructor
  · rw [hth_eq, Real.sin_arctan]
    have hd := div_mem_pp hqb.1 hqb.2 hsq.1 hsq.2 (by norm_num) (by norm_num)
    exact ⟨le_trans (by norm_num) hd.1, le_trans hd.2 (by norm_num)⟩
  · rw [hth_eq, Real.cos_arctan]
    have hd := div_mem_pp (le_refl (1 : ℝ)) (le_refl (1 : ℝ)) hsq.1 hsq.2
      (by norm_num) (by norm_num)
    exact ⟨le_trans (by norm_num) hd.1, le_trans hd.2 (by norm_num)⟩

set_option maxHeartbeats 2000000 in
theorem muscat_lat :
    23.4 ≤ (wgs84ToPSD93 23.588 58.3829 0).1 ∧
      (wgs84ToPSD93 23.588 58.3829 0).1 ≤ 23.8 := by
  obtain ⟨hXt, hYt, hZt⟩ := muscat_cart
  have hp := muscat_p
  obtain ⟨hsth, hcth⟩ := muscat_theta
  have hpl := Real.pi_gt_d6
  have hph := Real.pi_lt_d6
  have hsth0 : (0 : ℝ) ≤ Real.sin (bowringTheta (wgs84Cartesian 23.588 58.3829 0).1
      (wgs84Cartesian 23.588 58.3829 0).2.1 (wgs84Cartesian 23.588 58.3829 0).2.2
      6378249.145 (1 / 293.465)) := le_trans (by norm_num) hsth.1
  have hcth0 : (0 : ℝ) ≤ Real.cos (bowringTheta (wgs84Cartesian 23.588 58.3829 0).1
      (wgs84Cartesian 23.588 58.3829 0).2.1 (wgs84Cartesian 23.588 58.3829 0).2.2
      6378249.145 (1 / 293.465)) := le_trans (by norm_num) hcth.1
  have hs3 : (0.0634557 : ℝ) ≤ Real.sin (bowringTheta
      (wgs84Cartesian 23.588 58.3829 0).1 (wgs84Cartesian 23.588 58.3829 0).2.1
      (wgs84Cartesian 23.588 58.3829 0).2.2 6378249.145 (1 / 293.465)) ^ 3 ∧
      Real.sin (bowringTheta (wgs84Cartesian 23.588 58.3829 0).1
      (wgs84Cartesian 23.588 58.3829 0).2.1 (wgs84Cartesian 23.588 58.3829 0).2.2
      6378249.145 (1 / 293.465)) ^ 3 ≤ 0.0638465 :=
    ⟨le_trans (by norm_num) (pow_le_pow_left₀ (by norm_num) hsth.1 3),
     le_trans (pow_le_pow_left₀ hsth0 hsth.2 3) (by norm_num)⟩
  have hc3 : (0.7703482 : ℝ) ≤ Real.cos (bowringTheta
      (wgs84Cartesian 23.588 58.3829 0).1 (wgs84Cartesian 23.588 58.3829 0).2.1
      (wgs84Cartesian 23.588 58.3829 0).2.2 6378249.145 (1 / 293.465)) ^ 3 ∧
      Real.cos (bowringTheta (wgs84Cartesian 23.588 58.3829 0).1
      (wgs84Cartesian 23.588 58.3829 0).2.1 (wgs84Cartesian 23.588 58.3829 0).2.2
      6378249.145 (1 / 293.465)) ^ 3 ≤ 0.7709989 :=
    ⟨le_trans (by norm_num) (pow_le_pow_left₀ (by norm_num) hcth.1 3),
     le_trans (pow_le_pow_left₀ hcth0 hcth.2 3) (by norm_num)⟩
  have hK1 : (43542.865 : ℝ) ≤ (2 * (1 / 293.465) - 1 / 293.465 * (1 / 293.465)) /
      (1 - (2 * (1 / 293.465) - 1 / 293.465 * (1 / 293.465))) * (1 - 1 / 293.465) *
      6378249.145 ∧
      ((2 * (1 / 293.465) - 1 / 293.465 * (1 / 293.465)) /
      (1 - (2 * (1 / 293.465) - 1 / 293.465 * (1 / 293.465))) * (1 - 1 / 293.465) *
      6378249.145 : ℝ) ≤ 43542.8651 := by
    constructor <;> norm_num
  have hK1s3 := mul_mem_pp hK1.1 hK1.2 hs3.1 hs3.2 (by norm_num) (by norm_num)
  have hK1s3b : (2763 : ℝ) ≤ (2 * (1 / 293.465) - 1 / 293.465 * (1 / 293.465)) /
      (1 - (2 * (1 / 293.465) - 1 / 293.465 * (1 / 293.465))) * (1 - 1 / 293.465) *
      6378249.145 * Real.sin (bowringTheta (wgs84Cartesian 23.588 58.3829 0).1
        (wgs84Cartesian 23.588 58.3829 0).2.1 (wgs84Cartesian 23.588 58.3829 0).2.2
        6378249.145 (1 / 293.465)) ^ 3 ∧
      (2 * (1 / 293.465) - 1 / 293.465 * (1 / 293.465)) /
      (1 - (2 * (1 / 293.465) - 1 / 293.465 * (1 / 293.465))) * (1 - 1 / 293.465) *
      6378249.145 * Real.sin (bowringTheta (wgs84Cartesian 23.588 58.3829 0).1
        (wgs84Cartesian 23.588 58.3829 0).2.1 (wgs84Cartesian 23.588 58.3829 0).2.2
        6378249.145 (1 / 293.465)) ^ 3 ≤ 2780.1 :=
    ⟨le_trans (by norm_num) hK1s3.1, le_trans hK1s3.2 (by norm_num)⟩
  have hnum : (2539231.4 : ℝ) ≤ (wgs84Cartesian 23.588 58.3829 0).2.2 +
      (2 * (1 / 293.465) - 1 / 293.465 * (1 / 293.465)) /
      (1 - (2 * (1 / 293.465) - 1 / 293.465 * (1 / 293.465))) * (1 - 1 / 293.465) *
      6378249.145 * Real.sin (bowringTheta (wgs84Cartesian 23.588 58.3829 0).1
        (wgs84Cartesian 23.588 58.3829 0).2.1 (wgs84Cartesian 23.588 58.3829 0).2.2
        6378249.145 (1 / 293.465)) ^ 3 ∧
      (wgs84Cartesian 23.588 58.3829 0).2.2 +
      (2 * (1 / 293.465) - 1 / 293.465 * (1 / 293.465)) /
      (1 - (2 * (1 / 293.465) - 1 / 293.465 * (1 / 293.465))) * (1 - 1 / 293.465) *
      6378249.145 * Real.sin (bowringTheta (wgs84Cartesian 23.588 58.3829 0).1
        (wgs84Cartesian 23.588 58.3829 0).2.1 (wgs84Cartesian 23.588 58.3829 0).2.2
        6378249.145 (1 / 293.465)) ^ 3 ≤ 2539697.5 :=
    ⟨by linarith [hZt.1, hK1s3b.1], by linarith [hZt.2, hK1s3b.2]⟩
  have hK2 : (43394.49 : ℝ) ≤ (2 * (1 / 293.465) - 1 / 293.465 * (1 / 293.465)) *
      6378249.145 ∧
      ((2 * (1 / 293.465) - 1 / 293.465 * (1 / 293.465)) * 6378249.145 : ℝ) ≤
      43394.4901 := by
    constructor <;> norm_num
  have hK2c3 := mul_mem_pp hK2.1 hK2.2 hc3.1 hc3.2 (by norm_num) (by norm_num)
  have hK2c3b : (33428.8 : ℝ) ≤ (2 * (1 / 293.465) - 1 / 293.465 * (1 / 293.465)) *
      6378249.145 * Real.cos (bowringTheta (wgs84Cartesian 23.588 58.3829 0).1
        (wgs84Cartesian 23.588 58.3829 0).2.1 (wgs84Cartesian 23.588 58.3829 0).2.2
        6378249.145 (1 / 293.465)) ^ 3 ∧
      (2 * (1 / 293.465) - 1 / 293.465 * (1 / 293.465)) *
      6378249.145 * Real.cos (bowringTheta (wgs84Cartesian 23.588 58.3829 0).1
        (wgs84Cartesian 23.588 58.3829 0).2.1 (wgs84Cartesian 23.588 58.3829 0).2.2
        6378249.145 (1 / 293.465)) ^ 3 ≤ 33457.2 :=
    ⟨le_trans (by norm_num) hK2c3.1, le_trans hK2c3.2 (by norm_num)⟩
  have hden : (5806745.6 : ℝ) ≤ ecefP (wgs84Cartesian 23.588 58.3829 0).1
      (wgs84Cartesian 23.588 58.3829 0).2.1 -
      (2 * (1 / 293.465) - 1 / 293.465 * (1 / 293.465)) *
      6378249.145 * Real.cos (bowringTheta (wgs84Cartesian 23.588 58.3829 0).1
        (wgs84Cartesian 23.588 58.3829 0).2.1 (wgs84Cartesian 23.588 58.3829 0).2.2
        6378249.145 (1 / 293.465)) ^ 3 ∧
      ecefP (wgs84Cartesian 23.588 58.3829 0).1
      (wgs84Cartesian 23.588 58.3829 0).2.1 -
      (2 * (1 / 293.465) - 1 / 293.465 * (1 / 293.465)) *
      6378249.145 * Real.cos (bowringTheta (wgs84Cartesian 23.588 58.3829 0).1
        (wgs84Cartesian 23.588 58.3829 0).2.1 (wgs84Cartesian 23.588 58.3829 0).2.2
        6378249.145 (1 / 293.465)) ^ 3 ≤ 5816048 :=
    ⟨by linarith [hp.1, hK2c3b.2], by linarith [hp.2, hK2c3b.1]⟩
  have hden_pos : 0 < ecefP (wgs84Cartesian 23.588 58.3829 0).1
      (wgs84Cartesian 23.588 58.3829 0).2.1 -
      (2 * (1 / 293.465) - 1 / 293.465 * (1 / 293.465)) *
      6378249.145 * Real.cos (bowringTheta (wgs84Cartesian 23.588 58.3829 0).1
        (wgs84Cartesian 23.588 58.3829 0).2.1 (wgs84Cartesian 23.588 58.3829 0).2.2
        6378249.145 (1 / 293.465)) ^ 3 := by linarith [hden.1]
  have hr2 := div_mem_pp hnum.1 hnum.2 hden.1 hden.2 (by norm_num) (by norm_num)
  have hlat_eq : (wgs84ToPSD93 23.588 58.3829 0).1 =
      rad2deg (bowringLat (wgs84Cartesian 23.588 58.3829 0).1
        (wgs84Cartesian 23.588 58.3829 0).2.1 (wgs84Cartesian 23.588 58.3829 0).2.2
        6378249.145 (1 / 293.465)) := rfl
  have hbl_eq : bowringLat (wgs84Cartesian 23.588 58.3829 0).1
      (wgs84Cartesian 23.588 58.3829 0).2.1 (wgs84Cartesian 23.588 58.3829 0).2.2
      6378249.145 (1 / 293.465) =
      Real.arctan (((wgs84Cartesian 23.588 58.3829 0).2.2 +
        (2 * (1 / 293.465) - 1 / 293.465 * (1 / 293.465)) /
        (1 - (2 * (1 / 293.465) - 1 / 293.465 * (1 / 293.465))) *
        (1 - 1 / 293.465) * 6378249.145 *
        Real.sin (bowringTheta (wgs84Cartesian 23.588 58.3829 0).1
          (wgs84Cartesian 23.588 58.3829 0).2.1
          (wgs84Cartesian 23.588 58.3829 0).2.2 6378249.145 (1 / 293.465)) ^ 3) /
        (ecefP (wgs84Cartesian 23.588 58.3829 0).1
          (wgs84Cartesian 23.588 58.3829 0).2.1 -
        (2 * (1 / 293.465) - 1 / 293.465 * (1 / 293.465)) * 6378249.145 *
        Real.cos (bowringTheta (wgs84Cartesian 23.588 58.3829 0).1
          (wgs84Cartesian 23.588 58.3829 0).2.1
          (wgs84Cartesian 23.588 58.3829 0).2.2 6378249.145 (1 / 293.465)) ^ 3)) := by
    have h0 : bowringLat (wgs84Cartesian 23.588 58.3829 0).1
        (wgs84Cartesian 23.588 58.3829 0).2.1 (wgs84Cartesian 23.588 58.3829 0).2.2
        6378249.145 (1 / 293.465) =
        atan2 ((wgs84Cartesian 23.588 58.3829 0).2.2 +
          (2 * (1 / 293.465) - 1 / 293.465 * (1 / 293.465)) /
          (1 - (2 * (1 / 293.465) - 1 / 293.465 * (1 / 293.465))) *
          (1 - 1 / 293.465) * 6378249.145 *
          Real.sin (bowringTheta (wgs84Cartesian 23.588 58.3829 0).1
            (wgs84Cartesian 23.588 58.3829 0).2.1
            (wgs84Cartesian 23.588 58.3829 0).2.2 6378249.145 (1 / 293.465)) ^ 3)
          (ecefP (wgs84Cartesian 23.588 58.3829 0).1
            (wgs84Cartesian 23.588 58.3829 0).2.1 -
          (2 * (1 / 293.465) - 1 / 293.465 * (1 / 293.465)) * 6378249.145 *
          Real.cos (bowringTheta (wgs84Cartesian 23.588 58.3829 0).1
            (wgs84Cartesian 23.588 58.3829 0).2.1
            (wgs84Cartesian 23.588 58.3829 0).2.2 6378249.145 (1 / 293.465)) ^ 3) :=
      rfl
    rw [h0]
    unfold atan2
    rw [if_pos hden_pos]
  have harc1 : (0.41 : ℝ) ≤ Real.arctan (((wgs84Cartesian 23.588 58.3829 0).2.2 +
      (2 * (1 / 293.465) - 1 / 293.465 * (1 / 293.465)) /
      (1 - (2 * (1 / 293.465) - 1 / 293.465 * (1 / 293.465))) *
      (1 - 1 / 293.465) * 6378249.145 *
      Real.sin (bowringTheta (wgs84Cartesian 23.588 58.3829 0).1
        (wgs84Cartesian 23.588 58.3829 0).2.1
        (wgs84Cartesian 23.588 58.3829 0).2.2 6378249.145 (1 / 293.465)) ^ 3) /
      (ecefP (wgs84Cartesian 23.588 58.3829 0).1
        (wgs84Cartesian 23.588 58.3829 0).2.1 -
      (2 * (1 / 293.465) - 1 / 293.465 * (1 / 293.465)) * 6378249.145 *
      Real.cos (bowringTheta (wgs84Cartesian 23.588 58.3829 0).1
        (wgs84Cartesian 23.588 58.3829 0).2.1
        (wgs84Cartesian 23.588 58.3829 0).2.2 6378249.145 (1 / 293.465)) ^ 3)) := by
    apply arctan_ge_of_tan_le (by nlinarith) (by nlinarith)
    exact le_trans muscat_tan_lo_lat (le_trans (by norm_num) hr2.1)
  have harc2 : Real.arctan (((wgs84Cartesian 23.588 58.3829 0).2.2 +
      (2 * (1 / 293.465) - 1 / 293.465 * (1 / 293.465)) /
      (1 - (2 * (1 / 293.465) - 1 / 293.465 * (1 / 293.465))) *
      (1 - 1 / 293.465) * 6378249.145 *
      Real.sin (bowringTheta (wgs84Cartesian 23.588 58.3829 0).1
        (wgs84Cartesian 23.588 58.3829 0).2.1
        (wgs84Cartesian 23.588 58.3829 0).2.2 6378249.145 (1 / 293.465)) ^ 3) /
      (ecefP (wgs84Cartesian 23.588 58.3829 0).1
        (wgs84Cartesian 23.588 58.3829 0).2.1 -
      (2 * (1 / 293.465) - 1 / 293.465 * (1 / 293.465)) * 6378249.145 *
      Real.cos (bowringTheta (wgs84Cartesian 23.588 58.3829 0).1
        (wgs84Cartesian 23.588 58.3829 0).2.1
        (wgs84Cartesian 23.588 58.3829 0).2.2 6378249.145 (1 / 293.465)) ^ 3)) ≤
      (0.414 : ℝ) := by
    apply arctan_le_of_le_tan (by nlinarith) (by nlinarith)
    exact le_trans (le_trans hr2.2 (by norm_num)) muscat_tan_hi_lat
  rw [hlat_eq, hbl_eq]
  constructor
  · exact le_rad2deg (by norm_num) (by linarith [harc1])
  · exact rad2deg_le (by linarith [harc1]) (by linarith [harc2])

set_option maxHeartbeats 2000000 in
theorem muscat_lon :
    58.2 ≤ (wgs84ToPSD93 23.588 58.3829 0).2.1 ∧
      (wgs84ToPSD93 23.588 58.3829 0).2.1 ≤ 58.6 := by
  obtain ⟨hXt, hYt, hZt⟩ := muscat_cart
  have hpl := Real.pi_gt_d6
  have hph := Real.pi_lt_d6
  have hXpos : (0 : ℝ) < (wgs84Cartesian 23.588 58.3829 0).1 :=
    lt_of_lt_of_le (by norm_num) hXt.1
  have hlon_eq : (wgs84ToPSD93 23.588 58.3829 0).2.1 =
      rad2deg (atan2 (wgs84Cartesian 23.588 58.3829 0).2.1
        (wgs84Cartesian 23.588 58.3829 0).1) := rfl
  have hat_eq : atan2 (wgs84Cartesian 23.588 58.3829 0).2.1
      (wgs84Cartesian 23.588 58.3829 0).1 =
      Real.arctan ((wgs84Cartesian 23.588 58.3829 0).2.1 /
        (wgs84Cartesian 23.588 58.3829 0).1) := by
    unfold atan2
    rw [if_pos hXpos]
  have hr3 := div_mem_pp hYt.1 hYt.2 hXt.1 hXt.2 (by norm_num) (by norm_num)
  have hr3b : (1.622686 : ℝ) ≤ (wgs84Cartesian 23.588 58.3829 0).2.1 /
      (wgs84Cartesian 23.588 58.3829 0).1 ∧
      (wgs84Cartesian 23.588 58.3829 0).2.1 /
      (wgs84Cartesian 23.588 58.3829 0).1 ≤ 1.629297 :=
    ⟨le_trans (by norm_num) hr3.1, le_trans hr3.2 (by norm_num)⟩
  have harc1 : (1.016 : ℝ) ≤ Real.arctan ((wgs84Cartesian 23.588 58.3829 0).2.1 /
      (wgs84Cartesian 23.588 58.3829 0).1) := by
    apply arctan_ge_of_tan_le (by nlinarith) (by nlinarith)
    exact le_trans muscat_tan_lo_lon (le_trans (by norm_num) hr3b.1)
  have harc2 : Real.arctan ((wgs84Cartesian 23.588 58.3829 0).2.1 /
      (wgs84Cartesian 23.588 58.3829 0).1) ≤ (1.0225 : ℝ) := by
    apply arctan_le_of_le_tan (by nlinarith) (by nlinarith)
    exact le_trans (le_trans hr3b.2 (by norm_num)) muscat_tan_hi_lon
  rw [hlon_eq, hat_eq]
  constructor
  · exact le_rad2deg (by norm_num) (by linarith [harc1])
  · exact rad2deg_le (by linarith [harc1]) (by linarith [harc2])

/-- C1 counterexample: the Muscat reference point WGS84 (23.588, 58.3829),
converted with wgs84ToPSD93 and then psd93ToUTM with zone 40, does not have
an easting in the claimed range 490000 to 510000: the easting exceeds
600000 meters (the point lies about 1.4 degrees east of the zone 40
central meridian, about 141 km). -/
theorem C1_counterexample :
    ¬(490000 ≤ (psd93ToUTM (wgs84ToPSD93 23.588 58.3829 0).1
        (wgs84ToPSD93 23.588 58.3829 0).2.1 40).easting ∧
      (psd93ToUTM (wgs84ToPSD93 23.588 58.3829 0).1
        (wgs84ToPSD93 23.588 58.3829 0).2.1 40).easting ≤ 510000) := by
  have hlat := muscat_lat
  have hlon := muscat_lon
  have hbox := muscat_utm_box (wgs84ToPSD93 23.588 58.3829 0).1
    (wgs84ToPSD93 23.588 58.3829 0).2.1 hlat.1 hlat.2 hlon.1 hlon.2
  intro h
  linarith [hbox.1, h.2]

/-- C1 amended: the Muscat reference point WGS84 (23.588, 58.3829), via
wgs84ToPSD93 and then psd93ToUTM with zone 40, yields an easting strictly
between 600000 and 700000 meters (about 641400, outside the claimed
490000 to 510000 band) and a northing strictly between 2500000 and
2700000 meters (about 2609600, consistent with the claimed approximate
northing of 2600000). -/
theorem C1_theorem :
    600000 < (psd93ToUTM (wgs84ToPSD93 23.588 58.3829 0).1
        (wgs84ToPSD93 23.588 58.3829 0).2.1 40).easting ∧
      (psd93ToUTM (wgs84ToPSD93 23.588 58.3829 0).1
        (wgs84ToPSD93 23.588 58.3829 0).2.1 40).easting < 700000 ∧
      2500000 < (psd93ToUTM (wgs84ToPSD93 23.588 58.3829 0).1
        (wgs84ToPSD93 23.588 58.3829 0).2.1 40).northing ∧
      (psd93ToUTM (wgs84ToPSD93 23.588 58.3829 0).1
        (wgs84ToPSD93 23.588 58.3829 0).2.1 40).northing < 2700000 := by
  have hlat := muscat_lat
  have hlon := muscat_lon
  exact muscat_utm_box (wgs84ToPSD93 23.588 58.3829 0).1
    (wgs84ToPSD93 23.588 58.3829 0).2.1 hlat.1 hlat.2 hlon.1 hlon.2

end CoordSys
